import Mathlib

/-!
Session establishment with failover (cdk/core/session.cc)

A shallow embedding of `Session_builder` and of the constructors and the
destructor of `cdk::Session`.

Conventions of the embedding.

* C++ exceptions are `Except Error`; every function returns the builder state
  next to its result, so the state at the moment an error leaves is visible.
* Heap objects (transports, the underlying session object) are values; a null
  pointer is `none`.
* The external collaborators (the transport's `connect()`, the server's reply
  to the capability request, the security handshake) are not part of
  session.cc. What they do during one invocation of the builder is given by a
  value of `External`; every call made to a collaborator is appended to an
  event trace.
* The file is read with `WITH_SSL` defined and `WIN32` not defined.
-/

namespace cdk

/-- The numeric value of an error code. The error category is not modelled. -/
abbrev error_code := Int

/-- The class `cdk::Error`: an error code and a description. -/
structure Error where
  code : error_code
  msg : String
deriving DecidableEq, Repr

/-- The enumerators of `cdkerrc` that session.cc names. The enumeration is
declared in a header outside src/, so the values are parameters. -/
structure Cdkerrc where
  generic_error : error_code
  auth_failure : error_code
  protobuf_error : error_code
  tls_error : error_code
deriving DecidableEq, Repr

/-- Width in bits of the C++ types `unsigned` and `int` (32 on the platforms the
connector is built for). -/
def UINT_BITS : Nat := 32

/-- The conversion `static_cast<int>(code)` of an `unsigned int`. -/
def static_cast_int (code : Nat) : Int :=
  if code % 2 ^ UINT_BITS < 2 ^ (UINT_BITS - 1) then ((code % 2 ^ UINT_BITS : Nat) : Int)
  else ((code % 2 ^ UINT_BITS : Nat) : Int) - 2 ^ UINT_BITS

namespace TLS

/-- Modelled from the spec: the enumeration `TLS::Options::SSL_MODE` is declared
in a header outside src/; the spec gives its members and their order. -/
inductive SSL_MODE
  | DISABLED
  | PREFERRED
  | REQUIRED
  | VERIFY_CA
  | VERIFY_IDENTITY
deriving DecidableEq, Repr

/-- The integer value of an `SSL_MODE` enumerator, used by `<` and `>=`. -/
def SSL_MODE.toNat : SSL_MODE → Nat
  | .DISABLED => 0
  | .PREFERRED => 1
  | .REQUIRED => 2
  | .VERIFY_CA => 3
  | .VERIFY_IDENTITY => 4

/-- The class `TLS::Options`, as far as session.cc reads it: `ssl_mode()` and `get_ca()`. -/
structure Options where
  ssl_mode : SSL_MODE
  ca : String
deriving DecidableEq, Repr

end TLS

namespace ds

/-- The base class of the per-endpoint options, as far as session.cc reads it:
`database()` is a pointer to a string, null when no database is given. -/
structure Options where
  database : Option String
deriving DecidableEq, Repr

/-- A network endpoint. -/
structure TCPIP where
  host : String
  port : Nat
deriving DecidableEq, Repr

/-- Options of a network endpoint: the base options and `get_tls()`. -/
structure TCPIP_Options extends Options where
  tls : TLS.Options
deriving DecidableEq, Repr

/-- A local endpoint. -/
structure Unix_socket where
  path : String
deriving DecidableEq, Repr

/-- A legacy network endpoint. -/
structure TCPIP_old where
  host : String
  port : Nat
deriving DecidableEq, Repr

end ds

/-- A transport object: the plain transports built by the entry points and the
security wrapper built by `tls_connect` around a plain transport. -/
inductive Connection
  | TCPIP (host : String) (port : Nat)
  | Unix_socket (path : String)
  | TLS (inner : Connection) (options : TLS.Options)
deriving DecidableEq, Repr

namespace mysqlx

/-- Modelled from the spec: the underlying session object `mysqlx::Session` is
defined outside src/. It is built from a connected transport and the options
and is bound to that transport; its construction is taken to succeed. -/
structure Session where
  conn : Connection
  options : ds.Options
deriving DecidableEq, Repr

end mysqlx

/-- An error reply to the capability request, as passed to
`Reply_processor::error(code, severity, sql_state, msg)`. -/
structure Error_reply where
  code : Nat
  severity : Int
  sql_state : String
  msg : String
deriving DecidableEq, Repr

/-- What the external collaborators do during one invocation of the builder:
`connect` is the error thrown by the transport's `connect()` (as wrapped by
`rethrow_error()`), `reply` the error reply of the server to the capability
request, `handshake` the error thrown by `TLS::connect()`; `none` is success. -/
structure External where
  connect : Option Error
  reply : Option Error_reply
  handshake : Option Error
deriving DecidableEq, Repr

/-- One member of an ordered endpoint list: a descriptor with its options. -/
inductive Data_source
  | TCPIP (src : ds.TCPIP) (options : ds.TCPIP_Options)
  | Unix_socket (src : ds.Unix_socket) (options : ds.Options)
  | TCPIP_old (src : ds.TCPIP_old) (options : ds.Options)
deriving DecidableEq, Repr

/-- Calls made to the collaborators, in the order they are made. -/
inductive Event
  | invoke (src : Data_source)
  | new_conn (c : Connection)
  | connect (c : Connection)
  | delete_conn (c : Connection)
  | snd_CapabilitiesSet (c : Connection)
  | rcv_Reply (c : Connection)
  | handshake (c : Connection)
  | new_Session (s : mysqlx.Session)
  | rollback
  | delete_sess (s : mysqlx.Session)
deriving DecidableEq, Repr

/-- The data members of `struct Session_builder`. -/
structure Session_builder where
  m_conn : Option Connection := none
  m_sess : Option mysqlx.Session := none
  m_database : Option String := none
  m_throw_errors : Bool := false
  m_error : Option Error := none
  m_attempts : Nat := 0
deriving DecidableEq, Repr

/-- A builder together with the trace of the calls made so far. -/
structure State where
  sb : Session_builder
  trace : List Event
deriving DecidableEq, Repr

/-- Append events to the trace. -/
def State.log (st : State) (evs : List Event) : State :=
  { st with trace := st.trace ++ evs }

/-- The constructor `Session_builder(bool throw_errors = false)`, with an empty trace. -/
def Session_builder.init (throw_errors : Bool) : State :=
  { sb := { m_throw_errors := throw_errors }, trace := [] }

/-- Result of a function that may throw: the value or the error, and the state left behind. -/
abbrev Result (α : Type) := Except Error α × State

/-- The member template `Session_builder::connect(Conn*)`. The argument is the
transport just allocated by the caller; `outcome` is what its `connect()` does.
Returns the transport, or `none` for NULL. -/
def Session_builder.connect (cdkerrc : Cdkerrc) (st : State) (connection : Connection)
    (outcome : Option Error) : Result (Option Connection) :=
  let st : State :=
    { st with sb := { st.sb with m_attempts := (st.sb.m_attempts + 1) % 2 ^ UINT_BITS } }
  match outcome with
  | some err =>
    let st := st.log [Event.connect connection, Event.delete_conn connection]
    let code := err.code
    if st.sb.m_throw_errors = true ∨
        code = cdkerrc.auth_failure ∨
        code = cdkerrc.protobuf_error ∨
        code = cdkerrc.tls_error then
      (.error err, st)
    else
      (.ok none, { st with sb := { st.sb with m_error := some err } })
  | none => (.ok (some connection), st.log [Event.connect connection])

/-- The local reply processor `prc` of `tls_connect`. -/
structure Reply_processor where
  m_tls : Bool
  m_fallback : Bool
deriving DecidableEq, Repr

/-- The callback `error(code, severity, sql_state, msg)` of the reply processor. -/
def Reply_processor.error (prc : Reply_processor) (code : Nat) (severity : Int)
    (sql_state : String) (msg : String) : Except Error Reply_processor :=
  let expected_state := "HY000"
  if code = 5001 ∧
      severity = 2 ∧
      expected_state = sql_state ∧ prc.m_fallback = true then
    .ok { prc with m_tls := false }
  else
    .error ⟨static_cast_int code, msg⟩

/-- Modelled from the spec: `Protocol::rcv_Reply(prc).wait()` is defined outside
src/. Exactly one reply is received, an acknowledgment or a structured error;
the error is handed to the processor's `error` callback. -/
def rcv_Reply (prc : Reply_processor) (reply : Option Error_reply) : Except Error Reply_processor :=
  match reply with
  | none => .ok prc
  | some r => prc.error r.code r.severity r.sql_state r.msg

/-- The member `Session_builder::tls_connect(Socket_base&, const TLS::Options&)`.
Returns the security wrapper, or `none` for NULL. -/
def Session_builder.tls_connect (cdkerrc : Cdkerrc) (st : State) (connection : Connection)
    (options : TLS.Options) (ext : External) : Result (Option Connection) :=
  if options.ca ≠ "" ∧
      options.ssl_mode.toNat < TLS.SSL_MODE.VERIFY_CA.toNat then
    (.error ⟨cdkerrc.generic_error,
      "ssl-ca set and ssl-mode different than VERIFY_CA or VERIFY_IDENTITY"⟩, st)
  else if options.ssl_mode.toNat ≥ TLS.SSL_MODE.VERIFY_CA.toNat ∧
      options.ca = "" then
    (.error ⟨cdkerrc.generic_error, "Missing ssl-ca option to verify CA"⟩, st)
  else if options.ssl_mode = TLS.SSL_MODE.DISABLED then
    (.ok none, st)
  else
    let st := st.log [Event.snd_CapabilitiesSet connection]
    let prc : Reply_processor :=
      { m_tls := true, m_fallback := decide (TLS.SSL_MODE.PREFERRED = options.ssl_mode) }
    let st := st.log [Event.rcv_Reply connection]
    match rcv_Reply prc ext.reply with
    | .error e => (.error e, st)
    | .ok prc =>
      if prc.m_tls = false then
        (.ok none, st)
      else
        let tls_conn := Connection.TLS connection options
        let st := st.log [Event.new_conn tls_conn, Event.handshake tls_conn]
        match ext.handshake with
        | some e => (.error e, st)
        | none => (.ok (some tls_conn), st)

/-- The entry point `Session_builder::operator()(const ds::TCPIP&, const ds::TCPIP::Options&)`. -/
def Session_builder.call_TCPIP (cdkerrc : Cdkerrc) (st : State) (src : ds.TCPIP)
    (options : ds.TCPIP_Options) (ext : External) : Result Bool :=
  let plain := Connection.TCPIP src.host src.port
  match Session_builder.connect cdkerrc (st.log [Event.new_conn plain]) plain ext.connect with
  | (.error e, st) => (.error e, st)
  | (.ok none, st) => (.ok false, st)
  | (.ok (some connection), st) =>
    match Session_builder.tls_connect cdkerrc st connection options.tls ext with
    | (.error e, st) => (.error e, st)
    | (.ok (some tls_conn), st) =>
      let sess : mysqlx.Session := ⟨tls_conn, options.toOptions⟩
      (.ok true,
        { sb := { st.sb with m_conn := some tls_conn, m_sess := some sess,
                             m_database := options.database },
          trace := st.trace ++ [Event.new_Session sess] })
    | (.ok none, st) =>
      let sess : mysqlx.Session := ⟨connection, options.toOptions⟩
      (.ok true,
        { sb := { st.sb with m_conn := some connection, m_sess := some sess,
                             m_database := options.database },
          trace := st.trace ++ [Event.new_Session sess] })

/-- The entry point `Session_builder::operator()(const ds::Unix_socket&, const ds::Unix_socket::Options&)`. -/
def Session_builder.call_Unix_socket (cdkerrc : Cdkerrc) (st : State) (src : ds.Unix_socket)
    (options : ds.Options) (ext : External) : Result Bool :=
  let plain := Connection.Unix_socket src.path
  match Session_builder.connect cdkerrc (st.log [Event.new_conn plain]) plain ext.connect with
  | (.error e, st) => (.error e, st)
  | (.ok none, st) => (.ok false, st)
  | (.ok (some connection), st) =>
    let sess : mysqlx.Session := ⟨connection, options⟩
    (.ok true,
      { sb := { st.sb with m_conn := some connection, m_sess := some sess,
                           m_database := options.database },
        trace := st.trace ++ [Event.new_Session sess] })

/-- The entry point `Session_builder::operator()(const ds::TCPIP_old&, const ds::TCPIP_old::Options&)`. -/
def Session_builder.call_TCPIP_old (cdkerrc : Cdkerrc) (st : State) (_src : ds.TCPIP_old)
    (_options : ds.Options) : Result Bool :=
  (.error ⟨cdkerrc.generic_error, "Not supported"⟩, st)

/-- One member of an ordered endpoint list together with what the collaborators
do while the builder visits it. -/
structure Candidate where
  src : Data_source
  ext : External
deriving DecidableEq, Repr

/-- The call `visitor(ds, options)`: overload resolution on the kind of descriptor.
The invocation is recorded in the trace. -/
def Session_builder.call (cdkerrc : Cdkerrc) (st : State) (x : Candidate) : Result Bool :=
  let st := st.log [Event.invoke x.src]
  match x.src with
  | .TCPIP src options => Session_builder.call_TCPIP cdkerrc st src options x.ext
  | .Unix_socket src options => Session_builder.call_Unix_socket cdkerrc st src options x.ext
  | .TCPIP_old src options => Session_builder.call_TCPIP_old cdkerrc st src options

namespace ds

/-- An ordered endpoint list, each member with the behaviour of its collaborators. -/
abbrev Multi_source := List Candidate

/-- Modelled from the spec: `ds::Multi_source::visit` is declared in a header
outside src/. The list invokes the visitor on each descriptor in order, stops
at the first `true` return and lets a raised error propagate. The value
returned tells whether a visitor call returned `true`. -/
def Multi_source.visit (cdkerrc : Cdkerrc) (st : State) : Multi_source → Result Bool
  | [] => (.ok false, st)
  | x :: rest =>
    match Session_builder.call cdkerrc st x with
    | (.error e, st) => (.error e, st)
    | (.ok true, st) => (.ok true, st)
    | (.ok false, st) => Multi_source.visit cdkerrc st rest

end ds

/-- The data members of `cdk::Session` that session.cc assigns. -/
structure Session where
  m_session : Option mysqlx.Session
  m_connection : Option Connection
  m_database : Option String
  m_trans : Bool
deriving DecidableEq, Repr

/-- The function `throw_error(const char*)`: throws a generic error with the given description. -/
def throw_error (cdkerrc : Cdkerrc) (descr : String) : Error :=
  ⟨cdkerrc.generic_error, descr⟩

/-- The constructor `Session::Session(ds::TCPIP&, const ds::TCPIP::Options&)`.
The builder throws errors; `assert(sb.m_sess)` is not modelled as a failure,
the session built holds whatever `sb.m_sess` is. The constructor does not
assign `m_database`. -/
def Session.from_TCPIP (cdkerrc : Cdkerrc) (src : ds.TCPIP) (options : ds.TCPIP_Options)
    (ext : External) : Result Session :=
  let sb := Session_builder.init true
  match Session_builder.call_TCPIP cdkerrc sb src options ext with
  | (.error e, st) => (.error e, st)
  | (.ok _, st) =>
    (.ok { m_session := st.sb.m_sess, m_connection := st.sb.m_conn,
           m_database := none, m_trans := false }, st)

/-- The constructor `Session::Session(ds::Unix_socket&, const ds::Unix_socket::Options&)`,
read like the one for a network endpoint. -/
def Session.from_Unix_socket (cdkerrc : Cdkerrc) (src : ds.Unix_socket) (options : ds.Options)
    (ext : External) : Result Session :=
  let sb := Session_builder.init true
  match Session_builder.call_Unix_socket cdkerrc sb src options ext with
  | (.error e, st) => (.error e, st)
  | (.ok _, st) =>
    (.ok { m_session := st.sb.m_sess, m_connection := st.sb.m_conn,
           m_database := none, m_trans := false }, st)

/-- The constructor `Session::Session(ds::Multi_source&)`. -/
def Session.from_Multi_source (cdkerrc : Cdkerrc) (src : ds.Multi_source) : Result Session :=
  let sb := Session_builder.init false
  match ds.Multi_source.visit cdkerrc sb src with
  | (.error e, st) => (.error e, st)
  | (.ok _, st) =>
    match st.sb.m_sess with
    | none =>
      match decide (1 = st.sb.m_attempts), st.sb.m_error with
      | true, some err => (.error err, st)
      | _, _ =>
        (.error (throw_error cdkerrc
          (if 1 = st.sb.m_attempts then
            "Could not connect to the given data source"
          else
            "Could not connect ot any of the given data sources")), st)
    | some sess =>
      (.ok { m_session := some sess, m_connection := st.sb.m_conn,
             m_database := st.sb.m_database, m_trans := false }, st)

/-- The destructor `Session::~Session()`: the calls it makes, in order. Deleting
a null pointer does nothing. -/
def Session.destroy (s : Session) : List Event :=
  (if s.m_trans = true then [Event.rollback] else []) ++
  (match s.m_session with
   | some sess => [Event.delete_sess sess]
   | none => []) ++
  (match s.m_connection with
   | some c => [Event.delete_conn c]
   | none => [])

/-! ## Notions used to state the properties -/

/-- The codes on which `Session_builder::connect` rethrows whatever the mode. -/
def Cdkerrc.Fatal (cdkerrc : Cdkerrc) (code : error_code) : Prop :=
  code = cdkerrc.auth_failure ∨ code = cdkerrc.protobuf_error ∨ code = cdkerrc.tls_error

instance (cdkerrc : Cdkerrc) (code : error_code) : Decidable (cdkerrc.Fatal code) := by
  unfold Cdkerrc.Fatal; infer_instance

/-- The transport's `connect()` fails with `e` while the builder visits `x`, a
network or local endpoint. -/
def Candidate.connect_fails (x : Candidate) (e : Error) : Prop :=
  (match x.src with
   | .TCPIP_old _ _ => False
   | _ => True) ∧ x.ext.connect = some e

/-- The candidate is a network or local endpoint whose `connect()` fails with
an error whose code is outside the fatal set. -/
def Candidate.fails_recoverably (cdkerrc : Cdkerrc) (x : Candidate) : Prop :=
  ∃ e, x.connect_fails e ∧ ¬ cdkerrc.Fatal e.code

/-- The option combinations rejected by the first two tests of `tls_connect`. -/
def TLS.Options.invalid (o : TLS.Options) : Prop :=
  (o.ca ≠ "" ∧ o.ssl_mode.toNat < TLS.SSL_MODE.VERIFY_CA.toNat) ∨
  (o.ssl_mode.toNat ≥ TLS.SSL_MODE.VERIFY_CA.toNat ∧ o.ca = "")

instance (o : TLS.Options) : Decidable o.invalid := by
  unfold TLS.Options.invalid; infer_instance

/-- The error reply that `Reply_processor::error` accepts as a decline. -/
def Error_reply.is_decline (r : Error_reply) : Prop :=
  r.code = 5001 ∧ r.severity = 2 ∧ r.sql_state = "HY000"

instance (r : Error_reply) : Decidable r.is_decline := by
  unfold Error_reply.is_decline; infer_instance

/-- The descriptors on which the trace records an invocation of the builder, in order. -/
def invocations (tr : List Event) : List Data_source :=
  tr.filterMap fun ev =>
    match ev with
    | .invoke src => some src
    | _ => none

/-- The generic summary error of `Session::Session(ds::Multi_source&)`. -/
def no_candidate_error (cdkerrc : Cdkerrc) : Error :=
  throw_error cdkerrc "Could not connect ot any of the given data sources"

/-- The error left in `m_error` by a run of recoverable failures over `l`. -/
def last_error (l : List Candidate) (before : Option Error) : Option Error :=
  match l.getLast? with
  | some x => x.ext.connect
  | none => before

/-- What `tls_connect` returns and the calls it makes, started from a builder
with an empty trace. -/
def tls_outcome (cdkerrc : Cdkerrc) (c : Connection) (o : TLS.Options) (ext : External) :
    Except Error (Option Connection) × List Event :=
  ((Session_builder.tls_connect cdkerrc (Session_builder.init false) c o ext).1,
   (Session_builder.tls_connect cdkerrc (Session_builder.init false) c o ext).2.trace)

/-- The transports the trace records as allocated, in order. -/
def created (tr : List Event) : List Connection :=
  tr.filterMap fun ev =>
    match ev with
    | .new_conn c => some c
    | _ => none

/-- The transports the trace records as deleted, in order. -/
def destroyed (tr : List Event) : List Connection :=
  tr.filterMap fun ev =>
    match ev with
    | .delete_conn c => some c
    | _ => none

/-! ## Sample values, used to evaluate the definitions on concrete inputs -/

/-- Sample values of the enumerators of `cdkerrc`. -/
def sample_codes : Cdkerrc :=
  { generic_error := 1, auth_failure := 6, protobuf_error := 7, tls_error := 8 }

/-- A connect failure whose code is outside the fatal set of `sample_codes`. -/
def refused : Error := ⟨111, "Connection refused"⟩

/-- A connect failure whose code is `auth_failure` in `sample_codes`. -/
def denied : Error := ⟨6, "Access denied"⟩

/-- A network endpoint with the given TLS options and behaviour of the collaborators. -/
def sample_tcpip (mode : TLS.SSL_MODE) (ca : String) (ext : External) : Candidate :=
  { src := .TCPIP ⟨"db.example.org", 33060⟩ { database := some "test", tls := ⟨mode, ca⟩ },
    ext := ext }

/-- A network endpoint whose transport fails to connect with `refused`. -/
def refused_endpoint : Candidate :=
  sample_tcpip .PREFERRED "" ⟨some refused, none, none⟩

/-- A local endpoint whose transport connects. -/
def local_endpoint : Candidate :=
  { src := .Unix_socket ⟨"/tmp/mysqlx.sock"⟩ ⟨none⟩, ext := ⟨none, none, none⟩ }

/-- A legacy endpoint. -/
def legacy_endpoint : Candidate :=
  { src := .TCPIP_old ⟨"db.example.org", 3306⟩ ⟨none⟩, ext := ⟨none, none, none⟩ }

/-! ## The connect attempt -/

theorem connect_some (cdkerrc : Cdkerrc) (st : State) (connection : Connection) (e : Error) :
    Session_builder.connect cdkerrc st connection (some e) =
      if st.sb.m_throw_errors = true ∨ cdkerrc.Fatal e.code then
        (.error e,
          { sb := { st.sb with m_attempts := (st.sb.m_attempts + 1) % 2 ^ UINT_BITS },
            trace := st.trace ++ [Event.connect connection, Event.delete_conn connection] })
      else
        (.ok none,
          { sb := { st.sb with m_attempts := (st.sb.m_attempts + 1) % 2 ^ UINT_BITS,
                               m_error := some e },
            trace := st.trace ++ [Event.connect connection, Event.delete_conn connection] }) := by
  simp only [Session_builder.connect, State.log, Cdkerrc.Fatal]

theorem connect_none (cdkerrc : Cdkerrc) (st : State) (connection : Connection) :
    Session_builder.connect cdkerrc st connection none =
      (.ok (some connection),
        { sb := { st.sb with m_attempts := (st.sb.m_attempts + 1) % 2 ^ UINT_BITS },
          trace := st.trace ++ [Event.connect connection] }) := by
  simp only [Session_builder.connect, State.log]

/-- C3. Connect attempt policy: a failure `e` of the transport's `connect()` is
propagated exactly when the builder is strict or the code of `e` is
auth_failure, protobuf_error or tls_error; otherwise `connect` returns NULL,
raises nothing and `m_error` holds `e`. On success the same transport is
returned and `m_error` is unchanged. -/
theorem connect_policy (cdkerrc : Cdkerrc) (st : State) (connection : Connection) :
    (∀ e : Error,
      ((∃ e', (Session_builder.connect cdkerrc st connection (some e)).1 = .error e') ↔
        (st.sb.m_throw_errors = true ∨ e.code = cdkerrc.auth_failure ∨
          e.code = cdkerrc.protobuf_error ∨ e.code = cdkerrc.tls_error)) ∧
      (∀ e', (Session_builder.connect cdkerrc st connection (some e)).1 = .error e' → e' = e) ∧
      (¬ (st.sb.m_throw_errors = true ∨ e.code = cdkerrc.auth_failure ∨
          e.code = cdkerrc.protobuf_error ∨ e.code = cdkerrc.tls_error) →
        (Session_builder.connect cdkerrc st connection (some e)).1 = .ok none ∧
        (Session_builder.connect cdkerrc st connection (some e)).2.sb.m_error = some e)) ∧
    ((Session_builder.connect cdkerrc st connection none).1 = .ok (some connection) ∧
      (Session_builder.connect cdkerrc st connection none).2.sb.m_error = st.sb.m_error) := by
  refine ⟨fun e => ?_, ?_⟩
  · rw [connect_some]
    by_cases h : st.sb.m_throw_errors = true ∨ cdkerrc.Fatal e.code
    · have h' := h
      simp only [Cdkerrc.Fatal] at h'
      simp [h, h']
    · have h' := h
      simp only [Cdkerrc.Fatal] at h'
      simp [h, h']
  · rw [connect_none]
    exact ⟨rfl, rfl⟩

/-! ## Failover over an ordered list -/

theorem call_connect_fails (cdkerrc : Cdkerrc) (st : State) (x : Candidate) (e : Error)
    (h : x.connect_fails e) :
    ∃ tr, Session_builder.call cdkerrc st x =
      if st.sb.m_throw_errors = true ∨ cdkerrc.Fatal e.code then
        (.error e,
          { sb := { st.sb with m_attempts := (st.sb.m_attempts + 1) % 2 ^ UINT_BITS },
            trace := tr })
      else
        (.ok false,
          { sb := { st.sb with m_attempts := (st.sb.m_attempts + 1) % 2 ^ UINT_BITS,
                               m_error := some e },
            trace := tr }) := by
  obtain ⟨src, ext⟩ := x
  obtain ⟨hk, hc⟩ := h
  simp only at hc
  cases src with
  | TCPIP d o =>
    refine ⟨st.trace ++ [Event.invoke (.TCPIP d o)] ++ [Event.new_conn (.TCPIP d.host d.port)] ++
      [Event.connect (.TCPIP d.host d.port), Event.delete_conn (.TCPIP d.host d.port)], ?_⟩
    simp only [Session_builder.call, Session_builder.call_TCPIP, hc, connect_some, State.log]
    split_ifs <;> rfl
  | Unix_socket d o =>
    refine ⟨st.trace ++ [Event.invoke (.Unix_socket d o)] ++
      [Event.new_conn (.Unix_socket d.path)] ++
      [Event.connect (.Unix_socket d.path), Event.delete_conn (.Unix_socket d.path)], ?_⟩
    simp only [Session_builder.call, Session_builder.call_Unix_socket, hc, connect_some,
      State.log]
    split_ifs <;> rfl
  | TCPIP_old d o => exact absurd hk (by simp)

theorem call_recoverable (cdkerrc : Cdkerrc) (st : State) (x : Candidate) (e : Error)
    (h : x.connect_fails e) (hcode : ¬ cdkerrc.Fatal e.code)
    (hmode : st.sb.m_throw_errors = false) :
    ∃ tr, Session_builder.call cdkerrc st x =
      (.ok false,
        { sb := { st.sb with m_attempts := (st.sb.m_attempts + 1) % 2 ^ UINT_BITS,
                             m_error := some e },
          trace := tr }) := by
  obtain ⟨tr, htr⟩ := call_connect_fails cdkerrc st x e h
  refine ⟨tr, ?_⟩
  rw [htr, if_neg]
  simp [hmode, hcode]

theorem last_error_cons (x : Candidate) (rest : List Candidate) (before : Option Error) :
    last_error (x :: rest) before = last_error rest x.ext.connect := by
  cases rest with
  | nil => simp [last_error]
  | cons y ys =>
    simp only [last_error, List.getLast?_cons_cons]
    cases h : (y :: ys).getLast? with
    | some z => rfl
    | none => simp at h

theorem visit_all_recoverable (cdkerrc : Cdkerrc) (l : List Candidate) :
    ∀ st : State, st.sb.m_throw_errors = false → st.sb.m_attempts < 2 ^ UINT_BITS →
      (∀ x ∈ l, x.fails_recoverably cdkerrc) →
      ∃ tr, ds.Multi_source.visit cdkerrc st l =
        (.ok false,
          { sb := { st.sb with m_attempts := (st.sb.m_attempts + l.length) % 2 ^ UINT_BITS,
                               m_error := last_error l st.sb.m_error },
            trace := tr }) := by
  induction l with
  | nil =>
    intro st _ hlt _
    exact ⟨st.trace, by simp [ds.Multi_source.visit, last_error, Nat.mod_eq_of_lt hlt]⟩
  | cons x rest ih =>
    intro st hmode hlt hall
    obtain ⟨e, hfail, hcode⟩ := hall x (List.mem_cons_self x rest)
    obtain ⟨tr, htr⟩ := call_recoverable cdkerrc st x e hfail hcode hmode
    have hlt1 : (st.sb.m_attempts + 1) % 2 ^ UINT_BITS < 2 ^ UINT_BITS :=
      Nat.mod_lt _ (by decide)
    obtain ⟨tr2, htr2⟩ := ih
      { sb := { st.sb with m_attempts := (st.sb.m_attempts + 1) % 2 ^ UINT_BITS,
                           m_error := some e },
        trace := tr } hmode hlt1 (fun y hy => hall y (List.mem_cons_of_mem x hy))
    refine ⟨tr2, ?_⟩
    simp only [ds.Multi_source.visit, htr, htr2]
    have hmod : ((st.sb.m_attempts + 1) % 2 ^ UINT_BITS + rest.length) % 2 ^ UINT_BITS =
        (st.sb.m_attempts + (rest.length + 1)) % 2 ^ UINT_BITS := by
      rw [Nat.add_mod, Nat.mod_mod, ← Nat.add_mod]
      congr 1
      omega
    simp only [List.length_cons, hmod, last_error_cons, hfail.2]

theorem from_Multi_source_all_recoverable (cdkerrc : Cdkerrc) (l : ds.Multi_source)
    (hall : ∀ x ∈ l, x.fails_recoverably cdkerrc) :
    ∃ st : State, st.sb.m_error = last_error l none ∧
      st.sb.m_attempts = l.length % 2 ^ UINT_BITS ∧
      Session.from_Multi_source cdkerrc l =
        (match decide (1 = l.length % 2 ^ UINT_BITS), last_error l none with
         | true, some err => (.error err, st)
         | _, _ =>
           (.error (throw_error cdkerrc
             (if 1 = l.length % 2 ^ UINT_BITS then
               "Could not connect to the given data source"
             else
               "Could not connect ot any of the given data sources")), st)) := by
  obtain ⟨tr, h⟩ := visit_all_recoverable cdkerrc l (Session_builder.init false) rfl
    (by decide) hall
  refine ⟨{ sb := { m_attempts := l.length % 2 ^ UINT_BITS, m_error := last_error l none },
            trace := tr }, rfl, rfl, ?_⟩
  simp only [Session.from_Multi_source, h]
  simp only [Session_builder.init, Nat.zero_add]

/-- C1. For a list holding one network or local endpoint whose `connect()`
fails with an error `e` whose code is not auth_failure, protobuf_error or
tls_error, construction from the list raises exactly `e`. -/
theorem single_recoverable_error_reraised (cdkerrc : Cdkerrc) (x : Candidate) (e : Error)
    (hfail : x.connect_fails e)
    (hcode : e.code ≠ cdkerrc.auth_failure ∧ e.code ≠ cdkerrc.protobuf_error ∧
      e.code ≠ cdkerrc.tls_error) :
    (Session.from_Multi_source cdkerrc [x]).1 = .error e := by
  have hrec : ∀ y ∈ [x], y.fails_recoverably cdkerrc := by
    intro y hy
    rw [List.mem_singleton] at hy
    subst hy
    exact ⟨e, hfail, by simp [Cdkerrc.Fatal, hcode.1, hcode.2.1, hcode.2.2]⟩
  obtain ⟨st, _, _, h⟩ := from_Multi_source_all_recoverable cdkerrc [x] hrec
  rw [h]
  have hl : last_error [x] none = some e := by simp [last_error, hfail.2]
  have h1 : decide (1 = [x].length % 2 ^ UINT_BITS) = true := by
    rw [List.length_singleton]
    decide
  rw [hl, h1]

theorem single_recoverable_error_reraised_witness :
    refused_endpoint.connect_fails refused ∧
    (Session.from_Multi_source sample_codes [refused_endpoint]).1 = .error refused :=
  ⟨⟨trivial, rfl⟩,
    single_recoverable_error_reraised sample_codes refused_endpoint refused ⟨trivial, rfl⟩
      (by decide)⟩

/-- C2, as amended. For a list of at least two endpoints whose length is not
congruent to 1 modulo 2^32 and in which every endpoint fails recoverably,
construction from the list raises the generic summary error; the error of the
last endpoint stays in `m_error` and is not the one raised. -/
theorem all_recoverable_generic_error (cdkerrc : Cdkerrc) (l : ds.Multi_source)
    (_hlen : 2 ≤ l.length) (hwrap : l.length % 2 ^ 32 ≠ 1)
    (hall : ∀ x ∈ l, x.fails_recoverably cdkerrc) :
    (Session.from_Multi_source cdkerrc l).1 = .error (no_candidate_error cdkerrc) ∧
    (Session.from_Multi_source cdkerrc l).2.sb.m_error = last_error l none := by
  obtain ⟨st, hst, _, h⟩ := from_Multi_source_all_recoverable cdkerrc l hall
  have h1 : ¬ (1 = l.length % 2 ^ UINT_BITS) := fun hc => hwrap hc.symm
  have hd : decide (1 = l.length % 2 ^ UINT_BITS) = false := by simp [h1]
  rw [h, hd]
  simp only [if_neg h1]
  exact ⟨rfl, hst⟩

theorem all_recoverable_generic_error_witness :
    (Session.from_Multi_source sample_codes [refused_endpoint, refused_endpoint]).1 =
      .error ⟨1, "Could not connect ot any of the given data sources"⟩ :=
  (all_recoverable_generic_error sample_codes [refused_endpoint, refused_endpoint]
    (by decide) (by decide)
    (by
      intro x hx
      simp only [List.mem_cons, List.mem_singleton, List.not_mem_nil, or_false, or_self] at hx
      subst hx
      exact ⟨refused, ⟨trivial, rfl⟩, by decide⟩)).1

theorem from_Multi_source_replicate (cdkerrc : Cdkerrc) (x : Candidate) (e : Error) (n : Nat)
    (hn : n % 2 ^ UINT_BITS = 1) (hfail : x.connect_fails e) (hcode : ¬ cdkerrc.Fatal e.code) :
    (Session.from_Multi_source cdkerrc (List.replicate n x)).1 = .error e := by
  have hall : ∀ y ∈ List.replicate n x, y.fails_recoverably cdkerrc := by
    intro y hy
    rw [List.eq_of_mem_replicate hy]
    exact ⟨e, hfail, hcode⟩
  obtain ⟨st, _, _, h⟩ := from_Multi_source_all_recoverable cdkerrc _ hall
  have h0 : ¬ (n = 0) := by
    intro h0
    rw [h0] at hn
    simp at hn
  have hl : last_error (List.replicate n x) none = some e := by
    unfold last_error
    rw [List.getLast?_replicate, if_neg h0]
    exact hfail.2
  have h1 : decide (1 = (List.replicate n x).length % 2 ^ UINT_BITS) = true := by
    rw [List.length_replicate, hn]
    rfl
  rw [h, hl, h1]

/-- C2 fails as stated: over a list of 2^32 + 1 endpoints that all fail
recoverably the attempt counter has wrapped to 1, and construction raises the
error of the last endpoint instead of the generic summary error. -/
theorem all_recoverable_counterexample :
    2 ≤ (List.replicate (2 ^ 32 + 1) refused_endpoint).length ∧
    (∀ x ∈ List.replicate (2 ^ 32 + 1) refused_endpoint, x.fails_recoverably sample_codes) ∧
    (Session.from_Multi_source sample_codes (List.replicate (2 ^ 32 + 1) refused_endpoint)).1 =
      .error refused ∧
    refused ≠ no_candidate_error sample_codes := by
  refine ⟨?_, ?_, ?_, by decide⟩
  · rw [List.length_replicate]
    omega
  · intro x hx
    rw [List.eq_of_mem_replicate hx]
    exact ⟨refused, ⟨trivial, rfl⟩, by decide⟩
  · exact from_Multi_source_replicate sample_codes refused_endpoint refused (2 ^ 32 + 1)
      (by simp [UINT_BITS]) ⟨trivial, rfl⟩ (by decide)

theorem invocations_append (a b : List Event) :
    invocations (a ++ b) = invocations a ++ invocations b := by
  simp [invocations, List.filterMap_append]

theorem tls_connect_invocations (cdkerrc : Cdkerrc) (st : State) (c : Connection)
    (o : TLS.Options) (ext : External) :
    invocations (Session_builder.tls_connect cdkerrc st c o ext).2.trace =
      invocations st.trace := by
  obtain ⟨conn, reply, hs⟩ := ext
  unfold Session_builder.tls_connect
  split_ifs
  · rfl
  · rfl
  · rfl
  · cases reply with
    | none =>
      cases hs <;> simp [rcv_Reply, State.log, invocations_append, invocations]
    | some r =>
      simp only [rcv_Reply, Reply_processor.error]
      split_ifs
      · simp [State.log, invocations_append, invocations]
      · simp [State.log, invocations_append, invocations]

theorem call_TCPIP_invocations (cdkerrc : Cdkerrc) (st : State) (d : ds.TCPIP)
    (o : ds.TCPIP_Options) (ext : External) :
    invocations (Session_builder.call_TCPIP cdkerrc st d o ext).2.trace =
      invocations st.trace := by
  unfold Session_builder.call_TCPIP
  cases hc : ext.connect with
  | some e =>
    simp only [connect_some, State.log]
    split_ifs <;> simp [invocations_append, invocations]
  | none =>
    simp only [connect_none, State.log]
    have ht := tls_connect_invocations cdkerrc
      { sb := { st.sb with m_attempts := (st.sb.m_attempts + 1) % 2 ^ UINT_BITS },
        trace := st.trace ++ [Event.new_conn (Connection.TCPIP d.host d.port)] ++
          [Event.connect (Connection.TCPIP d.host d.port)] }
      (Connection.TCPIP d.host d.port) o.tls ext
    rcases hr : Session_builder.tls_connect cdkerrc
      { sb := { st.sb with m_attempts := (st.sb.m_attempts + 1) % 2 ^ UINT_BITS },
        trace := st.trace ++ [Event.new_conn (Connection.TCPIP d.host d.port)] ++
          [Event.connect (Connection.TCPIP d.host d.port)] }
      (Connection.TCPIP d.host d.port) o.tls ext with ⟨r, st2⟩
    rw [hr] at ht
    have ht2 : invocations st2.trace = invocations st.trace := by
      rw [ht]
      simp [invocations_append, invocations]
    rcases r with e | (_ | t)
    · exact ht2
    · simp only [invocations_append, ht2]
      simp [invocations]
    · simp only [invocations_append, ht2]
      simp [invocations]

theorem call_Unix_socket_invocations (cdkerrc : Cdkerrc) (st : State) (d : ds.Unix_socket)
    (o : ds.Options) (ext : External) :
    invocations (Session_builder.call_Unix_socket cdkerrc st d o ext).2.trace =
      invocations st.trace := by
  unfold Session_builder.call_Unix_socket
  cases hc : ext.connect with
  | some e =>
    simp only [connect_some, State.log]
    split_ifs <;> simp [invocations_append, invocations]
  | none =>
    simp [connect_none, State.log, invocations_append, invocations]

theorem call_invocations (cdkerrc : Cdkerrc) (st : State) (x : Candidate) :
    invocations (Session_builder.call cdkerrc st x).2.trace =
      invocations st.trace ++ [x.src] := by
  obtain ⟨src, ext⟩ := x
  cases src with
  | TCPIP d o =>
    simp only [Session_builder.call, call_TCPIP_invocations]
    simp [State.log, invocations_append, invocations]
  | Unix_socket d o =>
    simp only [Session_builder.call, call_Unix_socket_invocations]
    simp [State.log, invocations_append, invocations]
  | TCPIP_old d o =>
    simp [Session_builder.call, Session_builder.call_TCPIP_old, State.log, invocations_append,
      invocations]

theorem visit_append (cdkerrc : Cdkerrc) (pre l : List Candidate) :
    ∀ st st1 : State, ds.Multi_source.visit cdkerrc st pre = (.ok false, st1) →
      ds.Multi_source.visit cdkerrc st (pre ++ l) = ds.Multi_source.visit cdkerrc st1 l := by
  induction pre with
  | nil =>
    intro st st1 h
    simp only [ds.Multi_source.visit, Prod.mk.injEq, true_and] at h
    rw [h, List.nil_append]
  | cons x rest ih =>
    intro st st1 h
    simp only [List.cons_append, ds.Multi_source.visit] at h ⊢
    rcases hr : Session_builder.call cdkerrc st x with ⟨r, st2⟩
    rw [hr] at h
    rcases r with e | (_ | _)
    · simp at h
    · simp only at h ⊢
      exact ih st2 st1 h
    · simp at h

theorem visit_false_invocations (cdkerrc : Cdkerrc) (pre : List Candidate) :
    ∀ st st1 : State, ds.Multi_source.visit cdkerrc st pre = (.ok false, st1) →
      invocations st1.trace = invocations st.trace ++ pre.map Candidate.src := by
  induction pre with
  | nil =>
    intro st st1 h
    simp only [ds.Multi_source.visit, Prod.mk.injEq, true_and] at h
    simp [h]
  | cons x rest ih =>
    intro st st1 h
    simp only [ds.Multi_source.visit] at h
    have hi := call_invocations cdkerrc st x
    rcases hr : Session_builder.call cdkerrc st x with ⟨r, st2⟩
    rw [hr] at h hi
    rcases r with e | (_ | _)
    · simp at h
    · simp only at h hi
      rw [ih st2 st1 h, hi]
      simp
    · simp at h

/-- C4. When the endpoints before `x` were all visited without a session and
the invocation of the builder on `x` raises `e`, the iteration over the list
ends there with `e`, in the state in which the invocation left the builder:
the builder was invoked on the endpoints up to `x` and on none after it. This
holds from every builder state, strict or not, and construction from the list
raises the same `e`. -/
theorem raised_error_aborts_iteration (cdkerrc : Cdkerrc) (st st1 st2 : State)
    (pre post : List Candidate) (x : Candidate) (e : Error)
    (hpre : ds.Multi_source.visit cdkerrc st pre = (.ok false, st1))
    (hx : Session_builder.call cdkerrc st1 x = (.error e, st2)) :
    ds.Multi_source.visit cdkerrc st (pre ++ x :: post) = (.error e, st2) ∧
    invocations st2.trace = invocations st.trace ++ (pre ++ [x]).map Candidate.src ∧
    (st = Session_builder.init false →
      Session.from_Multi_source cdkerrc (pre ++ x :: post) = (.error e, st2)) := by
  have hv : ds.Multi_source.visit cdkerrc st (pre ++ x :: post) = (.error e, st2) := by
    rw [visit_append cdkerrc pre (x :: post) st st1 hpre]
    simp only [ds.Multi_source.visit, hx]
  refine ⟨hv, ?_, ?_⟩
  · have hi := call_invocations cdkerrc st1 x
    rw [hx] at hi
    simp only at hi
    rw [hi, visit_false_invocations cdkerrc pre st st1 hpre]
    simp
  · intro hst
    subst hst
    simp only [Session.from_Multi_source, hv]

theorem raised_error_aborts_iteration_witness :
    (Session.from_Multi_source sample_codes
      [refused_endpoint, legacy_endpoint, local_endpoint]).1 = .error ⟨1, "Not supported"⟩ ∧
    invocations (Session.from_Multi_source sample_codes
      [refused_endpoint, legacy_endpoint, local_endpoint]).2.trace =
      [refused_endpoint.src, legacy_endpoint.src] := by
  have h := raised_error_aborts_iteration sample_codes (Session_builder.init false)
    (ds.Multi_source.visit sample_codes (Session_builder.init false) [refused_endpoint]).2
    (Session_builder.call sample_codes
      (ds.Multi_source.visit sample_codes (Session_builder.init false) [refused_endpoint]).2
      legacy_endpoint).2
    [refused_endpoint] [local_endpoint] legacy_endpoint ⟨1, "Not supported"⟩ rfl rfl
  constructor
  · have h3 := h.2.2 rfl
    simp only [List.singleton_append] at h3
    rw [h3]
  · have h3 := h.2.2 rfl
    simp only [List.singleton_append] at h3
    rw [h3, h.2.1]
    rfl

theorem tls_connect_invalid (cdkerrc : Cdkerrc) (st : State) (c : Connection)
    (o : TLS.Options) (ext : External) (h : o.invalid) :
    ∃ msg, Session_builder.tls_connect cdkerrc st c o ext =
      (.error ⟨cdkerrc.generic_error, msg⟩, st) := by
  by_cases h1 : o.ca ≠ "" ∧ o.ssl_mode.toNat < TLS.SSL_MODE.VERIFY_CA.toNat
  · exact ⟨"ssl-ca set and ssl-mode different than VERIFY_CA or VERIFY_IDENTITY",
      by simp only [Session_builder.tls_connect, if_pos h1]⟩
  · have h2 : o.ssl_mode.toNat ≥ TLS.SSL_MODE.VERIFY_CA.toNat ∧ o.ca = "" := by
      rcases h with h | h
      · exact absurd h h1
      · exact h
    exact ⟨"Missing ssl-ca option to verify CA",
      by simp only [Session_builder.tls_connect, if_neg h1, if_pos h2]⟩

theorem call_TCPIP_invalid_options (cdkerrc : Cdkerrc) (st : State) (src : ds.TCPIP)
    (options : ds.TCPIP_Options) (ext : External)
    (hconn : ext.connect = none) (h : options.tls.invalid) :
    ∃ msg, Session_builder.call_TCPIP cdkerrc st src options ext =
      (.error ⟨cdkerrc.generic_error, msg⟩,
        { sb := { st.sb with m_attempts := (st.sb.m_attempts + 1) % 2 ^ UINT_BITS },
          trace := st.trace ++
            [Event.new_conn (Connection.TCPIP src.host src.port),
             Event.connect (Connection.TCPIP src.host src.port)] }) := by
  obtain ⟨msg, hmsg⟩ := tls_connect_invalid cdkerrc
    { sb := { st.sb with m_attempts := (st.sb.m_attempts + 1) % 2 ^ UINT_BITS },
      trace := st.trace ++ [Event.new_conn (Connection.TCPIP src.host src.port)] ++
        [Event.connect (Connection.TCPIP src.host src.port)] }
    (Connection.TCPIP src.host src.port) options.tls ext h
  refine ⟨msg, ?_⟩
  simp only [Session_builder.call_TCPIP, hconn, connect_none, State.log, hmsg]
  simp

/-- C5. Validation of the TLS options in `tls_connect`: a non-empty CA path
with ssl_mode below VERIFY_CA, or ssl_mode at least VERIFY_CA with an empty CA
path, raises an error from every builder state (strict or not) and leaves the
state as it was, so no capability request was sent and no reply read; the
network entry point then raises that error with only the allocation and the
connect of the plain transport in its trace. For every other combination
nothing is raised before the capability request: either the mode is DISABLED
and NULL is returned at once, or the request is sent. -/
theorem tls_option_validation (cdkerrc : Cdkerrc) (st : State) (connection : Connection)
    (options : TLS.Options) (ext : External) :
    (options.ca ≠ "" ∧ options.ssl_mode.toNat < TLS.SSL_MODE.VERIFY_CA.toNat →
      Session_builder.tls_connect cdkerrc st connection options ext =
        (.error ⟨cdkerrc.generic_error,
          "ssl-ca set and ssl-mode different than VERIFY_CA or VERIFY_IDENTITY"⟩, st)) ∧
    (options.ssl_mode.toNat ≥ TLS.SSL_MODE.VERIFY_CA.toNat ∧ options.ca = "" →
      Session_builder.tls_connect cdkerrc st connection options ext =
        (.error ⟨cdkerrc.generic_error, "Missing ssl-ca option to verify CA"⟩, st)) ∧
    (¬ options.invalid →
      (options.ssl_mode = TLS.SSL_MODE.DISABLED ∧
        Session_builder.tls_connect cdkerrc st connection options ext = (.ok none, st)) ∨
      (options.ssl_mode ≠ TLS.SSL_MODE.DISABLED ∧
        ∃ tr, (Session_builder.tls_connect cdkerrc st connection options ext).2.trace =
          st.trace ++ Event.snd_CapabilitiesSet connection :: Event.rcv_Reply connection :: tr)) ∧
    (∀ (src : ds.TCPIP) (o : ds.TCPIP_Options), o.tls = options → options.invalid →
      ext.connect = none →
      ∃ msg, Session_builder.call_TCPIP cdkerrc st src o ext =
        (.error ⟨cdkerrc.generic_error, msg⟩,
          { sb := { st.sb with m_attempts := (st.sb.m_attempts + 1) % 2 ^ UINT_BITS },
            trace := st.trace ++
              [Event.new_conn (Connection.TCPIP src.host src.port),
               Event.connect (Connection.TCPIP src.host src.port)] })) := by
  refine ⟨?_, ?_, ?_, ?_⟩
  rotate_left 3
  · intro src o ho hinv hconn
    exact call_TCPIP_invalid_options cdkerrc st src o ext hconn (ho ▸ hinv)
  · intro h
    simp only [Session_builder.tls_connect, if_pos h]
  · intro h
    have h1 : ¬ (options.ca ≠ "" ∧ options.ssl_mode.toNat < TLS.SSL_MODE.VERIFY_CA.toNat) :=
      fun hc => hc.1 h.2
    simp only [Session_builder.tls_connect, if_neg h1, if_pos h]
  · intro h
    have h1 : ¬ (options.ca ≠ "" ∧ options.ssl_mode.toNat < TLS.SSL_MODE.VERIFY_CA.toNat) :=
      fun hc => h (Or.inl hc)
    have h2 : ¬ (options.ssl_mode.toNat ≥ TLS.SSL_MODE.VERIFY_CA.toNat ∧ options.ca = "") :=
      fun hc => h (Or.inr hc)
    by_cases hd : options.ssl_mode = TLS.SSL_MODE.DISABLED
    · left
      refine ⟨hd, ?_⟩
      simp only [Session_builder.tls_connect, if_neg h1, if_neg h2, if_pos hd]
    · right
      refine ⟨hd, ?_⟩
      obtain ⟨conn, reply, hs⟩ := ext
      simp only [Session_builder.tls_connect, if_neg h1, if_neg h2, if_neg hd, State.log]
      cases reply with
      | none =>
        cases hs with
        | none => exact ⟨_, by simp [rcv_Reply]; rfl⟩
        | some e => exact ⟨_, by simp [rcv_Reply]; rfl⟩
      | some r =>
        simp only [rcv_Reply, Reply_processor.error]
        split_ifs
        · exact ⟨[], by simp⟩
        · exact ⟨[], by simp⟩

/-! ## Capability negotiation -/

theorem static_cast_int_small (code : Nat) (h : code < 2 ^ 31) :
    static_cast_int code = (code : Int) := by
  have h32 : code < 2 ^ UINT_BITS := lt_trans h (by decide)
  have h31 : code < 2 ^ (UINT_BITS - 1) := h
  simp only [static_cast_int, Nat.mod_eq_of_lt h32, if_pos h31]

theorem tls_connect_error_reply (cdkerrc : Cdkerrc) (st : State) (c : Connection)
    (o : TLS.Options) (ext : External) (r : Error_reply)
    (hvalid : ¬ o.invalid) (hmode : o.ssl_mode ≠ TLS.SSL_MODE.DISABLED)
    (hreply : ext.reply = some r) :
    Session_builder.tls_connect cdkerrc st c o ext =
      if r.is_decline ∧ o.ssl_mode = TLS.SSL_MODE.PREFERRED then
        (.ok none,
          { st with trace := st.trace ++ [Event.snd_CapabilitiesSet c] ++ [Event.rcv_Reply c] })
      else
        (.error ⟨static_cast_int r.code, r.msg⟩,
          { st with trace := st.trace ++ [Event.snd_CapabilitiesSet c] ++ [Event.rcv_Reply c] }) := by
  have h1 : ¬ (o.ca ≠ "" ∧ o.ssl_mode.toNat < TLS.SSL_MODE.VERIFY_CA.toNat) :=
    fun hc => hvalid (Or.inl hc)
  have h2 : ¬ (o.ssl_mode.toNat ≥ TLS.SSL_MODE.VERIFY_CA.toNat ∧ o.ca = "") :=
    fun hc => hvalid (Or.inr hc)
  simp only [Session_builder.tls_connect, if_neg h1, if_neg h2, if_neg hmode, State.log, hreply,
    rcv_Reply, Reply_processor.error, Error_reply.is_decline]
  by_cases hd : (r.code = 5001 ∧ r.severity = 2 ∧ r.sql_state = "HY000") ∧
      o.ssl_mode = TLS.SSL_MODE.PREFERRED
  · obtain ⟨⟨hc, hs, hq⟩, hp⟩ := hd
    simp [hc, hs, hq, hp]
  · rw [if_neg hd, if_neg]
    · intro hc
      apply hd
      obtain ⟨a, b, c', d⟩ := hc
      refine ⟨⟨a, b, c'.symm⟩, ?_⟩
      have hd2 : TLS.SSL_MODE.PREFERRED = o.ssl_mode := by simpa using d
      exact hd2.symm

theorem call_TCPIP_error_reply (cdkerrc : Cdkerrc) (st : State) (src : ds.TCPIP)
    (options : ds.TCPIP_Options) (ext : External) (r : Error_reply)
    (hconn : ext.connect = none) (hvalid : ¬ options.tls.invalid)
    (hmode : options.tls.ssl_mode ≠ TLS.SSL_MODE.DISABLED) (hreply : ext.reply = some r) :
    Session_builder.call_TCPIP cdkerrc st src options ext =
      if r.is_decline ∧ options.tls.ssl_mode = TLS.SSL_MODE.PREFERRED then
        (.ok true,
          { sb := { st.sb with
                      m_attempts := (st.sb.m_attempts + 1) % 2 ^ UINT_BITS,
                      m_conn := some (Connection.TCPIP src.host src.port),
                      m_sess := some ⟨Connection.TCPIP src.host src.port, options.toOptions⟩,
                      m_database := options.database },
            trace := st.trace ++
              [Event.new_conn (Connection.TCPIP src.host src.port),
               Event.connect (Connection.TCPIP src.host src.port),
               Event.snd_CapabilitiesSet (Connection.TCPIP src.host src.port),
               Event.rcv_Reply (Connection.TCPIP src.host src.port),
               Event.new_Session ⟨Connection.TCPIP src.host src.port, options.toOptions⟩] })
      else
        (.error ⟨static_cast_int r.code, r.msg⟩,
          { sb := { st.sb with m_attempts := (st.sb.m_attempts + 1) % 2 ^ UINT_BITS },
            trace := st.trace ++
              [Event.new_conn (Connection.TCPIP src.host src.port),
               Event.connect (Connection.TCPIP src.host src.port),
               Event.snd_CapabilitiesSet (Connection.TCPIP src.host src.port),
               Event.rcv_Reply (Connection.TCPIP src.host src.port)] }) := by
  simp only [Session_builder.call_TCPIP, hconn, connect_none, State.log,
    tls_connect_error_reply cdkerrc _ _ _ ext r hvalid hmode hreply]
  split_ifs <;> simp

/-- C6. Decline handling. For a network endpoint whose `connect()` succeeded
and whose TLS options are valid and not DISABLED, an error reply to the
capability request makes `tls_connect` return NULL and the entry point return
true with the plain transport in `m_conn` and a session bound to it, exactly
when code = 5001, severity = 2, state = "HY000" and ssl_mode = PREFERRED; the
same reply under REQUIRED raises an error. -/
theorem decline_handling (cdkerrc : Cdkerrc) (st : State) (src : ds.TCPIP)
    (options : ds.TCPIP_Options) (ext : External) (r : Error_reply)
    (hconn : ext.connect = none) (hvalid : ¬ options.tls.invalid)
    (hmode : options.tls.ssl_mode ≠ TLS.SSL_MODE.DISABLED) (hreply : ext.reply = some r) :
    (((Session_builder.tls_connect cdkerrc st (Connection.TCPIP src.host src.port)
          options.tls ext).1 = .ok none ∧
        (Session_builder.call_TCPIP cdkerrc st src options ext).1 = .ok true ∧
        (Session_builder.call_TCPIP cdkerrc st src options ext).2.sb.m_conn =
          some (Connection.TCPIP src.host src.port) ∧
        (Session_builder.call_TCPIP cdkerrc st src options ext).2.sb.m_sess =
          some ⟨Connection.TCPIP src.host src.port, options.toOptions⟩) ↔
      (r.code = 5001 ∧ r.severity = 2 ∧ r.sql_state = "HY000" ∧
        options.tls.ssl_mode = TLS.SSL_MODE.PREFERRED)) ∧
    ((Session_builder.tls_connect cdkerrc st (Connection.TCPIP src.host src.port)
          options.tls ext).1 = .ok none ↔
      (r.code = 5001 ∧ r.severity = 2 ∧ r.sql_state = "HY000" ∧
        options.tls.ssl_mode = TLS.SSL_MODE.PREFERRED)) ∧
    ((Session_builder.call_TCPIP cdkerrc st src options ext).1 = .ok true ↔
      (r.code = 5001 ∧ r.severity = 2 ∧ r.sql_state = "HY000" ∧
        options.tls.ssl_mode = TLS.SSL_MODE.PREFERRED)) ∧
    (options.tls.ssl_mode = TLS.SSL_MODE.REQUIRED →
      ∃ e, (Session_builder.call_TCPIP cdkerrc st src options ext).1 = .error e) := by
  have ht := tls_connect_error_reply cdkerrc st (Connection.TCPIP src.host src.port)
    options.tls ext r hvalid hmode hreply
  have hc := call_TCPIP_error_reply cdkerrc st src options ext r hconn hvalid hmode hreply
  by_cases hd : r.is_decline ∧ options.tls.ssl_mode = TLS.SSL_MODE.PREFERRED
  · have hd2 : r.code = 5001 ∧ r.severity = 2 ∧ r.sql_state = "HY000" ∧
        options.tls.ssl_mode = TLS.SSL_MODE.PREFERRED :=
      ⟨hd.1.1, hd.1.2.1, hd.1.2.2, hd.2⟩
    rw [if_pos hd] at ht hc
    rw [ht, hc]
    refine ⟨⟨fun _ => hd2, fun _ => ⟨rfl, rfl, rfl, rfl⟩⟩, ⟨fun _ => hd2, fun _ => rfl⟩,
      ⟨fun _ => hd2, fun _ => rfl⟩, ?_⟩
    intro hreq
    rw [hd.2] at hreq
    exact absurd hreq (by decide)
  · have hd2 : ¬ (r.code = 5001 ∧ r.severity = 2 ∧ r.sql_state = "HY000" ∧
        options.tls.ssl_mode = TLS.SSL_MODE.PREFERRED) :=
      fun h => hd ⟨⟨h.1, h.2.1, h.2.2.1⟩, h.2.2.2⟩
    rw [if_neg hd] at ht hc
    rw [ht, hc]
    refine ⟨⟨fun h => ?_, fun h => absurd h hd2⟩, ⟨fun h => ?_, fun h => absurd h hd2⟩,
      ⟨fun h => ?_, fun h => absurd h hd2⟩, fun _ => ⟨_, rfl⟩⟩
    · exact absurd h.1 (by simp)
    · exact absurd h (by simp)
    · exact absurd h (by simp)

theorem decline_handling_witness :
    ((Session_builder.call_TCPIP sample_codes (Session_builder.init false)
        ⟨"db.example.org", 33060⟩
        { database := some "test", tls := ⟨.PREFERRED, ""⟩ }
        ⟨none, some ⟨5001, 2, "HY000", "Capability prepare failed"⟩, none⟩).1 = .ok true) ∧
    (∃ e, (Session_builder.call_TCPIP sample_codes (Session_builder.init false)
        ⟨"db.example.org", 33060⟩
        { database := some "test", tls := ⟨.REQUIRED, ""⟩ }
        ⟨none, some ⟨5001, 2, "HY000", "Capability prepare failed"⟩, none⟩).1 = .error e) :=
  ⟨(decline_handling sample_codes (Session_builder.init false) ⟨"db.example.org", 33060⟩
      { database := some "test", tls := ⟨.PREFERRED, ""⟩ }
      ⟨none, some ⟨5001, 2, "HY000", "Capability prepare failed"⟩, none⟩
      ⟨5001, 2, "HY000", "Capability prepare failed"⟩ rfl (by decide) (by decide) rfl).2.2.1.mpr
      ⟨rfl, rfl, rfl, rfl⟩,
   (decline_handling sample_codes (Session_builder.init false) ⟨"db.example.org", 33060⟩
      { database := some "test", tls := ⟨.REQUIRED, ""⟩ }
      ⟨none, some ⟨5001, 2, "HY000", "Capability prepare failed"⟩, none⟩
      ⟨5001, 2, "HY000", "Capability prepare failed"⟩ rfl (by decide) (by decide) rfl).2.2.2
      rfl⟩

/-- C7, as amended. An error reply to the capability request that is not the
accepted decline aborts the whole attempt, for every reply code and from every
builder state, strict or not: the network entry point raises an error whose
code is the reply's code converted by `static_cast<int>` (the same number when
the code is below 2^31) and whose message is the reply's message, `m_error` is
left as it was, and the iteration over a list ends with that invocation. -/
theorem negotiation_error_aborts (cdkerrc : Cdkerrc) (st : State) (src : ds.TCPIP)
    (options : ds.TCPIP_Options) (ext : External) (r : Error_reply) (post : List Candidate)
    (hconn : ext.connect = none) (hvalid : ¬ options.tls.invalid)
    (hmode : options.tls.ssl_mode ≠ TLS.SSL_MODE.DISABLED) (hreply : ext.reply = some r)
    (hnot : ¬ (r.code = 5001 ∧ r.severity = 2 ∧ r.sql_state = "HY000" ∧
      options.tls.ssl_mode = TLS.SSL_MODE.PREFERRED)) :
    (Session_builder.call_TCPIP cdkerrc st src options ext).1 =
      .error ⟨static_cast_int r.code, r.msg⟩ ∧
    (r.code < 2 ^ 31 → static_cast_int r.code = (r.code : Int)) ∧
    (Session_builder.call_TCPIP cdkerrc st src options ext).2.sb.m_error = st.sb.m_error ∧
    ds.Multi_source.visit cdkerrc st (⟨.TCPIP src options, ext⟩ :: post) =
      Session_builder.call cdkerrc st ⟨.TCPIP src options, ext⟩ ∧
    (ds.Multi_source.visit cdkerrc st (⟨.TCPIP src options, ext⟩ :: post)).1 =
      .error ⟨static_cast_int r.code, r.msg⟩ ∧
    invocations (ds.Multi_source.visit cdkerrc st (⟨.TCPIP src options, ext⟩ :: post)).2.trace =
      invocations st.trace ++ [.TCPIP src options] := by
  have hd : ¬ (r.is_decline ∧ options.tls.ssl_mode = TLS.SSL_MODE.PREFERRED) :=
    fun h => hnot ⟨h.1.1, h.1.2.1, h.1.2.2, h.2⟩
  have hc := call_TCPIP_error_reply cdkerrc (st.log [Event.invoke (.TCPIP src options)]) src
    options ext r hconn hvalid hmode hreply
  have hc0 := call_TCPIP_error_reply cdkerrc st src options ext r hconn hvalid hmode hreply
  rw [if_neg hd] at hc hc0
  have hcall : Session_builder.call cdkerrc st ⟨.TCPIP src options, ext⟩ =
      Session_builder.call_TCPIP cdkerrc (st.log [Event.invoke (.TCPIP src options)]) src
        options ext := rfl
  have hv : ds.Multi_source.visit cdkerrc st (⟨.TCPIP src options, ext⟩ :: post) =
      Session_builder.call cdkerrc st ⟨.TCPIP src options, ext⟩ := by
    simp only [ds.Multi_source.visit, hcall, hc]
  refine ⟨by rw [hc0], static_cast_int_small r.code, by rw [hc0], hv, ?_, ?_⟩
  · rw [hv, hcall, hc]
  · rw [hv, call_invocations]

theorem negotiation_error_aborts_witness :
    (ds.Multi_source.visit sample_codes (Session_builder.init false)
      (⟨.TCPIP ⟨"db.example.org", 33060⟩ { database := some "test", tls := ⟨.REQUIRED, ""⟩ },
        ⟨none, some ⟨5001, 2, "HY000", "Capability prepare failed"⟩, none⟩⟩ ::
        [local_endpoint])).1 = .error ⟨5001, "Capability prepare failed"⟩ :=
  (negotiation_error_aborts sample_codes (Session_builder.init false)
    ⟨"db.example.org", 33060⟩ { database := some "test", tls := ⟨.REQUIRED, ""⟩ }
    ⟨none, some ⟨5001, 2, "HY000", "Capability prepare failed"⟩, none⟩
    ⟨5001, 2, "HY000", "Capability prepare failed"⟩ [local_endpoint]
    rfl (by decide) (by decide) rfl (by decide)).2.2.2.2.1

/-- C7 fails as stated: for the reply code 4294967295 the error raised carries
the code -1, not the reply's code. -/
theorem negotiation_error_code_counterexample :
    (Session_builder.call_TCPIP sample_codes (Session_builder.init false)
      ⟨"db.example.org", 33060⟩ { database := some "test", tls := ⟨.REQUIRED, ""⟩ }
      ⟨none, some ⟨4294967295, 2, "HY000", "Capability prepare failed"⟩, none⟩).1 =
      .error ⟨-1, "Capability prepare failed"⟩ ∧
    ((-1 : Int) ≠ ((4294967295 : Nat) : Int)) := by
  constructor
  · rfl
  · decide

/-- C8. For a network endpoint whose `connect()` succeeds and whose TLS options
have ssl_mode = DISABLED and an empty CA path, `tls_connect` returns NULL and
leaves the state as it was, and the entry point returns true with the plain
transport in `m_conn` and a session bound to it in `m_sess`. The trace holds
the allocation and connect of the plain transport and the construction of the
session only: no capability request, no reply, no security wrapper, whatever
the reply and the handshake would have been. -/
theorem disabled_skips_negotiation (cdkerrc : Cdkerrc) (st : State) (src : ds.TCPIP)
    (options : ds.TCPIP_Options) (ext : External)
    (hconn : ext.connect = none)
    (hmode : options.tls.ssl_mode = TLS.SSL_MODE.DISABLED) (hca : options.tls.ca = "") :
    Session_builder.tls_connect cdkerrc st (Connection.TCPIP src.host src.port) options.tls ext =
      (.ok none, st) ∧
    Session_builder.call_TCPIP cdkerrc st src options ext =
      (.ok true,
        { sb := { st.sb with
                    m_attempts := (st.sb.m_attempts + 1) % 2 ^ UINT_BITS,
                    m_conn := some (Connection.TCPIP src.host src.port),
                    m_sess := some ⟨Connection.TCPIP src.host src.port, options.toOptions⟩,
                    m_database := options.database },
          trace := st.trace ++
            [Event.new_conn (Connection.TCPIP src.host src.port),
             Event.connect (Connection.TCPIP src.host src.port),
             Event.new_Session ⟨Connection.TCPIP src.host src.port, options.toOptions⟩] }) := by
  have ht : ∀ st0 : State, Session_builder.tls_connect cdkerrc st0
      (Connection.TCPIP src.host src.port) options.tls ext = (.ok none, st0) := by
    intro st0
    simp [Session_builder.tls_connect, hmode, hca, TLS.SSL_MODE.toNat]
  refine ⟨ht st, ?_⟩
  simp only [Session_builder.call_TCPIP, hconn, connect_none, State.log, ht]
  simp

theorem disabled_skips_negotiation_witness :
    (Session_builder.call_TCPIP sample_codes (Session_builder.init false)
      ⟨"db.example.org", 33060⟩ { database := some "test", tls := ⟨.DISABLED, ""⟩ }
      ⟨none, some ⟨1045, 1, "28000", "Access denied"⟩, some refused⟩).2.trace =
      [Event.new_conn (Connection.TCPIP "db.example.org" 33060),
       Event.connect (Connection.TCPIP "db.example.org" 33060),
       Event.new_Session ⟨Connection.TCPIP "db.example.org" 33060, ⟨some "test"⟩⟩] :=
  congrArg (fun r => r.2.trace)
    (disabled_skips_negotiation sample_codes (Session_builder.init false)
      ⟨"db.example.org", 33060⟩ { database := some "test", tls := ⟨.DISABLED, ""⟩ }
      ⟨none, some ⟨1045, 1, "28000", "Access denied"⟩, some refused⟩ rfl rfl rfl).2

/-- C9. The entry point for a legacy endpoint raises the error "Not supported"
for every descriptor and options value and from every builder state, strict or
not, and leaves the builder as it was, `m_error` included. Visited in a list
after endpoints that gave no session, or alone, it ends the iteration and the
construction with that error. -/
theorem legacy_endpoint_not_supported (cdkerrc : Cdkerrc) (st : State) (src : ds.TCPIP_old)
    (options : ds.Options) (ext : External) :
    Session_builder.call_TCPIP_old cdkerrc st src options =
      (.error ⟨cdkerrc.generic_error, "Not supported"⟩, st) ∧
    (Session_builder.call cdkerrc st ⟨.TCPIP_old src options, ext⟩).1 =
      .error ⟨cdkerrc.generic_error, "Not supported"⟩ ∧
    (Session_builder.call cdkerrc st ⟨.TCPIP_old src options, ext⟩).2.sb = st.sb ∧
    (∀ (pre post : List Candidate) (st0 : State),
      ds.Multi_source.visit cdkerrc st0 pre = (.ok false, st) →
      (ds.Multi_source.visit cdkerrc st0 (pre ++ ⟨.TCPIP_old src options, ext⟩ :: post)).1 =
        .error ⟨cdkerrc.generic_error, "Not supported"⟩ ∧
      (ds.Multi_source.visit cdkerrc st0 (pre ++ ⟨.TCPIP_old src options, ext⟩ :: post)).2.sb =
        st.sb) ∧
    (Session.from_Multi_source cdkerrc [⟨.TCPIP_old src options, ext⟩]).1 =
      .error ⟨cdkerrc.generic_error, "Not supported"⟩ := by
  refine ⟨rfl, rfl, rfl, ?_, rfl⟩
  intro pre post st0 hpre
  rw [visit_append cdkerrc pre _ st0 st hpre]
  exact ⟨rfl, rfl⟩

/-- C10. Session teardown as an event trace: with the transaction flag set the
destructor performs rollback once, then deletes the session object, then
deletes the transport; with the flag clear it performs no rollback and deletes
the session object and then the transport. -/
theorem teardown_order (sess : mysqlx.Session) (c : Connection) (db : Option String) :
    Session.destroy ⟨some sess, some c, db, true⟩ =
      [Event.rollback, Event.delete_sess sess, Event.delete_conn c] ∧
    Session.destroy ⟨some sess, some c, db, false⟩ =
      [Event.delete_sess sess, Event.delete_conn c] ∧
    (∀ s : Session, (Session.destroy s).count Event.rollback = if s.m_trans = true then 1 else 0) := by
  refine ⟨rfl, rfl, ?_⟩
  intro s
  obtain ⟨ms, mc, md, mt⟩ := s
  cases ms <;> cases mc <;> cases mt <;> simp [Session.destroy]

/-! ## The entry points, case by case -/

theorem tls_connect_eq (cdkerrc : Cdkerrc) (st : State) (c : Connection) (o : TLS.Options)
    (ext : External) :
    Session_builder.tls_connect cdkerrc st c o ext =
      ((tls_outcome cdkerrc c o ext).1,
        { st with trace := st.trace ++ (tls_outcome cdkerrc c o ext).2 }) := by
  obtain ⟨conn, reply, hs⟩ := ext
  unfold tls_outcome Session_builder.tls_connect
  split_ifs
  · simp [Session_builder.init]
  · simp [Session_builder.init]
  · simp [Session_builder.init]
  · cases reply with
    | none =>
      cases hs <;> simp [rcv_Reply, State.log, Session_builder.init]
    | some r =>
      simp only [rcv_Reply, Reply_processor.error]
      split_ifs <;> simp [State.log, Session_builder.init]

theorem call_TCPIP_connected (cdkerrc : Cdkerrc) (st : State) (src : ds.TCPIP)
    (options : ds.TCPIP_Options) (ext : External) (hconn : ext.connect = none) :
    Session_builder.call_TCPIP cdkerrc st src options ext =
      match tls_outcome cdkerrc (Connection.TCPIP src.host src.port) options.tls ext with
      | (.error e, evs) =>
        (.error e,
          { sb := { st.sb with m_attempts := (st.sb.m_attempts + 1) % 2 ^ UINT_BITS },
            trace := st.trace ++
              [Event.new_conn (Connection.TCPIP src.host src.port),
               Event.connect (Connection.TCPIP src.host src.port)] ++ evs })
      | (.ok w, evs) =>
        (.ok true,
          { sb := { st.sb with
                      m_attempts := (st.sb.m_attempts + 1) % 2 ^ UINT_BITS,
                      m_conn := some (w.getD (Connection.TCPIP src.host src.port)),
                      m_sess := some ⟨w.getD (Connection.TCPIP src.host src.port),
                        options.toOptions⟩,
                      m_database := options.database },
            trace := st.trace ++
              [Event.new_conn (Connection.TCPIP src.host src.port),
               Event.connect (Connection.TCPIP src.host src.port)] ++ evs ++
              [Event.new_Session ⟨w.getD (Connection.TCPIP src.host src.port),
                options.toOptions⟩] }) := by
  simp only [Session_builder.call_TCPIP, hconn, connect_none, State.log, tls_connect_eq]
  rcases tls_outcome cdkerrc (Connection.TCPIP src.host src.port) options.tls ext with
    ⟨r, evs⟩
  rcases r with e | (_ | w) <;> simp

theorem call_Unix_socket_connected (cdkerrc : Cdkerrc) (st : State) (src : ds.Unix_socket)
    (options : ds.Options) (ext : External) (hconn : ext.connect = none) :
    Session_builder.call_Unix_socket cdkerrc st src options ext =
      (.ok true,
        { sb := { st.sb with
                    m_attempts := (st.sb.m_attempts + 1) % 2 ^ UINT_BITS,
                    m_conn := some (Connection.Unix_socket src.path),
                    m_sess := some ⟨Connection.Unix_socket src.path, options⟩,
                    m_database := options.database },
          trace := st.trace ++
            [Event.new_conn (Connection.Unix_socket src.path),
             Event.connect (Connection.Unix_socket src.path),
             Event.new_Session ⟨Connection.Unix_socket src.path, options⟩] }) := by
  simp [Session_builder.call_Unix_socket, hconn, connect_none, State.log]

theorem call_TCPIP_connect_fails (cdkerrc : Cdkerrc) (st : State) (src : ds.TCPIP)
    (options : ds.TCPIP_Options) (ext : External) (e : Error) (hconn : ext.connect = some e) :
    Session_builder.call_TCPIP cdkerrc st src options ext =
      if st.sb.m_throw_errors = true ∨ cdkerrc.Fatal e.code then
        (.error e,
          { sb := { st.sb with m_attempts := (st.sb.m_attempts + 1) % 2 ^ UINT_BITS },
            trace := st.trace ++
              [Event.new_conn (Connection.TCPIP src.host src.port),
               Event.connect (Connection.TCPIP src.host src.port),
               Event.delete_conn (Connection.TCPIP src.host src.port)] })
      else
        (.ok false,
          { sb := { st.sb with m_attempts := (st.sb.m_attempts + 1) % 2 ^ UINT_BITS,
                               m_error := some e },
            trace := st.trace ++
              [Event.new_conn (Connection.TCPIP src.host src.port),
               Event.connect (Connection.TCPIP src.host src.port),
               Event.delete_conn (Connection.TCPIP src.host src.port)] }) := by
  simp only [Session_builder.call_TCPIP, hconn, connect_some, State.log]
  split_ifs <;> simp

theorem call_Unix_socket_connect_fails (cdkerrc : Cdkerrc) (st : State) (src : ds.Unix_socket)
    (options : ds.Options) (ext : External) (e : Error) (hconn : ext.connect = some e) :
    Session_builder.call_Unix_socket cdkerrc st src options ext =
      if st.sb.m_throw_errors = true ∨ cdkerrc.Fatal e.code then
        (.error e,
          { sb := { st.sb with m_attempts := (st.sb.m_attempts + 1) % 2 ^ UINT_BITS },
            trace := st.trace ++
              [Event.new_conn (Connection.Unix_socket src.path),
               Event.connect (Connection.Unix_socket src.path),
               Event.delete_conn (Connection.Unix_socket src.path)] })
      else
        (.ok false,
          { sb := { st.sb with m_attempts := (st.sb.m_attempts + 1) % 2 ^ UINT_BITS,
                               m_error := some e },
            trace := st.trace ++
              [Event.new_conn (Connection.Unix_socket src.path),
               Event.connect (Connection.Unix_socket src.path),
               Event.delete_conn (Connection.Unix_socket src.path)] }) := by
  simp only [Session_builder.call_Unix_socket, hconn, connect_some, State.log]
  split_ifs <;> simp

/-! ## Construction from a single endpoint -/

/-- C11. Construction from a single network or local endpoint runs the builder
in strict mode: when the transport's `connect()` fails with `e`, whatever its
code, the constructor raises exactly `e`. An error raised by these constructors
is always the one of `connect()`, or for a network endpoint the one raised by
`tls_connect`; none is synthesized. A constructor that completes holds a
session object and a transport, so `assert(sb.m_sess)` never fails. -/
theorem single_endpoint_propagates (cdkerrc : Cdkerrc) (ext : External) :
    (∀ e, ext.connect = some e →
      (∀ src options, (Session.from_TCPIP cdkerrc src options ext).1 = .error e) ∧
      (∀ src options, (Session.from_Unix_socket cdkerrc src options ext).1 = .error e)) ∧
    (∀ src options e', (Session.from_TCPIP cdkerrc src options ext).1 = .error e' →
      ext.connect = some e' ∨
      (ext.connect = none ∧
        (tls_outcome cdkerrc (Connection.TCPIP src.host src.port) options.tls ext).1 =
          .error e')) ∧
    (∀ src options e', (Session.from_Unix_socket cdkerrc src options ext).1 = .error e' →
      ext.connect = some e') ∧
    (∀ src options s, (Session.from_TCPIP cdkerrc src options ext).1 = .ok s →
      s.m_session ≠ none ∧ s.m_connection ≠ none) ∧
    (∀ src options s, (Session.from_Unix_socket cdkerrc src options ext).1 = .ok s →
      s.m_session ≠ none ∧ s.m_connection ≠ none) := by
  have hstrict : (Session_builder.init true).sb.m_throw_errors = true := rfl
  refine ⟨?_, ?_, ?_, ?_, ?_⟩
  · intro e he
    constructor
    · intro src options
      simp only [Session.from_TCPIP, call_TCPIP_connect_fails cdkerrc _ src options ext e he,
        hstrict, true_or, if_true]
    · intro src options
      simp only [Session.from_Unix_socket,
        call_Unix_socket_connect_fails cdkerrc _ src options ext e he, hstrict, true_or, if_true]
  · intro src options e' h
    cases hc : ext.connect with
    | some e =>
      left
      simp only [Session.from_TCPIP, call_TCPIP_connect_fails cdkerrc _ src options ext e hc,
        hstrict, true_or, if_true] at h
      simpa using h
    | none =>
      right
      refine ⟨rfl, ?_⟩
      simp only [Session.from_TCPIP, call_TCPIP_connected cdkerrc _ src options ext hc] at h
      rcases ho : tls_outcome cdkerrc (Connection.TCPIP src.host src.port) options.tls ext with
        ⟨r, evs⟩
      rw [ho] at h
      rcases r with e | w
      · simpa using h
      · simp at h
  · intro src options e' h
    cases hc : ext.connect with
    | some e =>
      simp only [Session.from_Unix_socket,
        call_Unix_socket_connect_fails cdkerrc _ src options ext e hc, hstrict, true_or,
        if_true] at h
      simpa using h
    | none =>
      simp [Session.from_Unix_socket, call_Unix_socket_connected cdkerrc _ src options ext hc]
        at h
  · intro src options s h
    cases hc : ext.connect with
    | some e =>
      simp [Session.from_TCPIP, call_TCPIP_connect_fails cdkerrc _ src options ext e hc,
        hstrict] at h
    | none =>
      simp only [Session.from_TCPIP, call_TCPIP_connected cdkerrc _ src options ext hc] at h
      rcases ho : tls_outcome cdkerrc (Connection.TCPIP src.host src.port) options.tls ext with
        ⟨r, evs⟩
      rw [ho] at h
      rcases r with e | w
      · simp at h
      · simp only [Except.ok.injEq] at h
        subst h
        simp
  · intro src options s h
    cases hc : ext.connect with
    | some e =>
      simp [Session.from_Unix_socket,
        call_Unix_socket_connect_fails cdkerrc _ src options ext e hc, hstrict] at h
    | none =>
      simp only [Session.from_Unix_socket,
        call_Unix_socket_connected cdkerrc _ src options ext hc, Except.ok.injEq] at h
      subst h
      simp

theorem tls_outcome_invalid (cdkerrc : Cdkerrc) (c : Connection) (o : TLS.Options)
    (ext : External) (h : o.invalid) :
    ∃ msg, tls_outcome cdkerrc c o ext = (.error ⟨cdkerrc.generic_error, msg⟩, []) := by
  obtain ⟨msg, hmsg⟩ := tls_connect_invalid cdkerrc (Session_builder.init false) c o ext h
  exact ⟨msg, by simp only [tls_outcome, hmsg]; rfl⟩

theorem tls_outcome_disabled (cdkerrc : Cdkerrc) (c : Connection) (o : TLS.Options)
    (ext : External) (hvalid : ¬ o.invalid) (hmode : o.ssl_mode = TLS.SSL_MODE.DISABLED) :
    tls_outcome cdkerrc c o ext = (.ok none, []) := by
  have h1 : ¬ (o.ca ≠ "" ∧ o.ssl_mode.toNat < TLS.SSL_MODE.VERIFY_CA.toNat) :=
    fun hc => hvalid (Or.inl hc)
  have h2 : ¬ (o.ssl_mode.toNat ≥ TLS.SSL_MODE.VERIFY_CA.toNat ∧ o.ca = "") :=
    fun hc => hvalid (Or.inr hc)
  simp only [tls_outcome, Session_builder.tls_connect, if_neg h1, if_neg h2, if_pos hmode]
  rfl

theorem tls_outcome_error_reply (cdkerrc : Cdkerrc) (c : Connection) (o : TLS.Options)
    (ext : External) (r : Error_reply) (hvalid : ¬ o.invalid)
    (hmode : o.ssl_mode ≠ TLS.SSL_MODE.DISABLED) (hreply : ext.reply = some r) :
    tls_outcome cdkerrc c o ext =
      if r.is_decline ∧ o.ssl_mode = TLS.SSL_MODE.PREFERRED then
        (.ok none, [Event.snd_CapabilitiesSet c, Event.rcv_Reply c])
      else
        (.error ⟨static_cast_int r.code, r.msg⟩,
          [Event.snd_CapabilitiesSet c, Event.rcv_Reply c]) := by
  simp only [tls_outcome, tls_connect_error_reply cdkerrc _ c o ext r hvalid hmode hreply]
  split_ifs <;> rfl

theorem tls_outcome_accepted (cdkerrc : Cdkerrc) (c : Connection) (o : TLS.Options)
    (ext : External) (hvalid : ¬ o.invalid)
    (hmode : o.ssl_mode ≠ TLS.SSL_MODE.DISABLED) (hreply : ext.reply = none) :
    tls_outcome cdkerrc c o ext =
      (match ext.handshake with
       | some e => .error e
       | none => .ok (some (Connection.TLS c o)),
       [Event.snd_CapabilitiesSet c, Event.rcv_Reply c,
        Event.new_conn (Connection.TLS c o), Event.handshake (Connection.TLS c o)]) := by
  have h1 : ¬ (o.ca ≠ "" ∧ o.ssl_mode.toNat < TLS.SSL_MODE.VERIFY_CA.toNat) :=
    fun hc => hvalid (Or.inl hc)
  have h2 : ¬ (o.ssl_mode.toNat ≥ TLS.SSL_MODE.VERIFY_CA.toNat ∧ o.ca = "") :=
    fun hc => hvalid (Or.inr hc)
  simp only [tls_outcome, Session_builder.tls_connect, if_neg h1, if_neg h2, if_neg hmode,
    hreply, rcv_Reply, State.log]
  cases ext.handshake <;> simp [Session_builder.init]

theorem tls_outcome_ok (cdkerrc : Cdkerrc) (c : Connection) (o : TLS.Options)
    (ext : External) (w : Option Connection) (evs : List Event)
    (h : tls_outcome cdkerrc c o ext = (.ok w, evs)) :
    (w = some (Connection.TLS c o) ∧ o.ssl_mode ≠ TLS.SSL_MODE.DISABLED ∧ ext.reply = none ∧
      ext.handshake = none) ∨
    (w = none ∧ (o.ssl_mode = TLS.SSL_MODE.DISABLED ∨ ∃ r, ext.reply = some r)) := by
  by_cases hinv : o.invalid
  · obtain ⟨msg, hmsg⟩ := tls_outcome_invalid cdkerrc c o ext hinv
    rw [hmsg] at h
    simp at h
  · by_cases hmode : o.ssl_mode = TLS.SSL_MODE.DISABLED
    · rw [tls_outcome_disabled cdkerrc c o ext hinv hmode] at h
      simp only [Prod.mk.injEq, Except.ok.injEq] at h
      exact Or.inr ⟨h.1.symm, Or.inl hmode⟩
    · cases hr : ext.reply with
      | some r =>
        rw [tls_outcome_error_reply cdkerrc c o ext r hinv hmode hr] at h
        split_ifs at h
        · simp only [Prod.mk.injEq, Except.ok.injEq] at h
          exact Or.inr ⟨h.1.symm, Or.inr ⟨r, rfl⟩⟩
        · simp at h
      | none =>
        rw [tls_outcome_accepted cdkerrc c o ext hinv hmode hr] at h
        cases hh : ext.handshake with
        | some e =>
          rw [hh] at h
          simp at h
        | none =>
          rw [hh] at h
          simp only [Prod.mk.injEq, Except.ok.injEq] at h
          exact Or.inl ⟨h.1.symm, hmode, rfl, rfl⟩

theorem tls_outcome_destroyed (cdkerrc : Cdkerrc) (c : Connection) (o : TLS.Options)
    (ext : External) : destroyed (tls_outcome cdkerrc c o ext).2 = [] := by
  by_cases hinv : o.invalid
  · obtain ⟨msg, hmsg⟩ := tls_outcome_invalid cdkerrc c o ext hinv
    rw [hmsg]
    rfl
  · by_cases hmode : o.ssl_mode = TLS.SSL_MODE.DISABLED
    · rw [tls_outcome_disabled cdkerrc c o ext hinv hmode]
      rfl
    · cases hr : ext.reply with
      | some r =>
        rw [tls_outcome_error_reply cdkerrc c o ext r hinv hmode hr]
        split_ifs <;> rfl
      | none =>
        rw [tls_outcome_accepted cdkerrc c o ext hinv hmode hr]
        rfl

/-! ## Transport ownership -/

theorem destroyed_append (a b : List Event) : destroyed (a ++ b) = destroyed a ++ destroyed b := by
  simp [destroyed, List.filterMap_append]

theorem created_append (a b : List Event) : created (a ++ b) = created a ++ created b := by
  simp [created, List.filterMap_append]

theorem call_TCPIP_raise_keeps_transport (cdkerrc : Cdkerrc) (st : State) (src : ds.TCPIP)
    (options : ds.TCPIP_Options) (ext : External) (e : Error)
    (hconn : ext.connect = none)
    (hraise : (Session_builder.call_TCPIP cdkerrc st src options ext).1 = .error e) :
    ∃ evs, (Session_builder.call_TCPIP cdkerrc st src options ext).2.trace = st.trace ++ evs ∧
      Connection.TCPIP src.host src.port ∈ created evs ∧ destroyed evs = [] := by
  rw [call_TCPIP_connected cdkerrc st src options ext hconn] at hraise ⊢
  have hd := tls_outcome_destroyed cdkerrc (Connection.TCPIP src.host src.port) options.tls ext
  rcases ho : tls_outcome cdkerrc (Connection.TCPIP src.host src.port) options.tls ext with
    ⟨r, evs⟩
  rw [ho] at hraise hd
  rcases r with e' | w
  · refine ⟨[Event.new_conn (Connection.TCPIP src.host src.port),
      Event.connect (Connection.TCPIP src.host src.port)] ++ evs, by simp, ?_, ?_⟩
    · rw [created_append]
      simp [created]
    · rw [destroyed_append]
      simp only at hd
      rw [hd]
      rfl
  · simp at hraise

/-- C12. The network entry point evaluated where it raises after the plain
transport has connected: on a TLS option validation failure, on an error reply
that is not the accepted decline, and on a handshake failure. Each time the
trace records the allocation of the plain transport (and of the security
wrapper before the handshake) and no deletion. When `connect()` itself fails
the transport is deleted. -/
theorem transport_kept_on_tls_failure :
    ((Session_builder.call sample_codes (Session_builder.init false)
        (sample_tcpip .DISABLED "ca.pem" ⟨none, none, none⟩)).1 =
        .error ⟨1, "ssl-ca set and ssl-mode different than VERIFY_CA or VERIFY_IDENTITY"⟩ ∧
      created (Session_builder.call sample_codes (Session_builder.init false)
        (sample_tcpip .DISABLED "ca.pem" ⟨none, none, none⟩)).2.trace =
        [Connection.TCPIP "db.example.org" 33060] ∧
      destroyed (Session_builder.call sample_codes (Session_builder.init false)
        (sample_tcpip .DISABLED "ca.pem" ⟨none, none, none⟩)).2.trace = []) ∧
    ((Session_builder.call sample_codes (Session_builder.init false)
        (sample_tcpip .REQUIRED ""
          ⟨none, some ⟨5001, 2, "HY000", "Capability prepare failed"⟩, none⟩)).1 =
        .error ⟨5001, "Capability prepare failed"⟩ ∧
      created (Session_builder.call sample_codes (Session_builder.init false)
        (sample_tcpip .REQUIRED ""
          ⟨none, some ⟨5001, 2, "HY000", "Capability prepare failed"⟩, none⟩)).2.trace =
        [Connection.TCPIP "db.example.org" 33060] ∧
      destroyed (Session_builder.call sample_codes (Session_builder.init false)
        (sample_tcpip .REQUIRED ""
          ⟨none, some ⟨5001, 2, "HY000", "Capability prepare failed"⟩, none⟩)).2.trace = []) ∧
    ((Session_builder.call sample_codes (Session_builder.init false)
        (sample_tcpip .REQUIRED "" ⟨none, none, some refused⟩)).1 = .error refused ∧
      created (Session_builder.call sample_codes (Session_builder.init false)
        (sample_tcpip .REQUIRED "" ⟨none, none, some refused⟩)).2.trace =
        [Connection.TCPIP "db.example.org" 33060,
         Connection.TLS (Connection.TCPIP "db.example.org" 33060) ⟨.REQUIRED, ""⟩] ∧
      destroyed (Session_builder.call sample_codes (Session_builder.init false)
        (sample_tcpip .REQUIRED "" ⟨none, none, some refused⟩)).2.trace = []) ∧
    ((Session_builder.call sample_codes (Session_builder.init false) refused_endpoint).1 =
        .ok false ∧
      created (Session_builder.call sample_codes (Session_builder.init false)
        refused_endpoint).2.trace = [Connection.TCPIP "db.example.org" 33060] ∧
      destroyed (Session_builder.call sample_codes (Session_builder.init false)
        refused_endpoint).2.trace = [Connection.TCPIP "db.example.org" 33060]) := by
  refine ⟨⟨rfl, rfl, rfl⟩, ⟨rfl, rfl, rfl⟩, ⟨rfl, rfl, rfl⟩, ⟨rfl, rfl, rfl⟩⟩

/-! ## Handshake failure -/

/-- C13. When the server accepts the capability request and the handshake of
the security wrapper then fails with `e`, the network entry point raises
exactly `e`, for every code of `e` and from every builder state, strict or
not: `m_error` is left as it was and the iteration over a list ends with that
invocation, later endpoints not being visited. -/
theorem handshake_failure_propagates (cdkerrc : Cdkerrc) (st : State) (src : ds.TCPIP)
    (options : ds.TCPIP_Options) (ext : External) (e : Error) (post : List Candidate)
    (hconn : ext.connect = none) (hvalid : ¬ options.tls.invalid)
    (hmode : options.tls.ssl_mode ≠ TLS.SSL_MODE.DISABLED) (hreply : ext.reply = none)
    (hs : ext.handshake = some e) :
    Session_builder.call_TCPIP cdkerrc st src options ext =
      (.error e,
        { sb := { st.sb with m_attempts := (st.sb.m_attempts + 1) % 2 ^ UINT_BITS },
          trace := st.trace ++
            [Event.new_conn (Connection.TCPIP src.host src.port),
             Event.connect (Connection.TCPIP src.host src.port),
             Event.snd_CapabilitiesSet (Connection.TCPIP src.host src.port),
             Event.rcv_Reply (Connection.TCPIP src.host src.port),
             Event.new_conn (Connection.TLS (Connection.TCPIP src.host src.port) options.tls),
             Event.handshake
               (Connection.TLS (Connection.TCPIP src.host src.port) options.tls)] }) ∧
    (Session_builder.call_TCPIP cdkerrc st src options ext).2.sb.m_error = st.sb.m_error ∧
    ds.Multi_source.visit cdkerrc st (⟨.TCPIP src options, ext⟩ :: post) =
      Session_builder.call cdkerrc st ⟨.TCPIP src options, ext⟩ ∧
    (ds.Multi_source.visit cdkerrc st (⟨.TCPIP src options, ext⟩ :: post)).1 = .error e ∧
    invocations (ds.Multi_source.visit cdkerrc st (⟨.TCPIP src options, ext⟩ :: post)).2.trace =
      invocations st.trace ++ [.TCPIP src options] := by
  have hcall : ∀ st0 : State, Session_builder.call_TCPIP cdkerrc st0 src options ext =
      (.error e,
        { sb := { st0.sb with m_attempts := (st0.sb.m_attempts + 1) % 2 ^ UINT_BITS },
          trace := st0.trace ++
            [Event.new_conn (Connection.TCPIP src.host src.port),
             Event.connect (Connection.TCPIP src.host src.port),
             Event.snd_CapabilitiesSet (Connection.TCPIP src.host src.port),
             Event.rcv_Reply (Connection.TCPIP src.host src.port),
             Event.new_conn (Connection.TLS (Connection.TCPIP src.host src.port) options.tls),
             Event.handshake
               (Connection.TLS (Connection.TCPIP src.host src.port) options.tls)] }) := by
    intro st0
    rw [call_TCPIP_connected cdkerrc st0 src options ext hconn,
      tls_outcome_accepted cdkerrc _ options.tls ext hvalid hmode hreply, hs]
    simp
  have hx : Session_builder.call cdkerrc st ⟨.TCPIP src options, ext⟩ =
      Session_builder.call_TCPIP cdkerrc (st.log [Event.invoke (.TCPIP src options)]) src
        options ext := rfl
  have hv : ds.Multi_source.visit cdkerrc st (⟨.TCPIP src options, ext⟩ :: post) =
      Session_builder.call cdkerrc st ⟨.TCPIP src options, ext⟩ := by
    simp only [ds.Multi_source.visit, hx, hcall]
  refine ⟨hcall st, by rw [hcall st], hv, ?_, ?_⟩
  · rw [hv, hx, hcall]
  · rw [hv, call_invocations]

theorem handshake_failure_propagates_witness :
    (ds.Multi_source.visit sample_codes (Session_builder.init false)
      (⟨.TCPIP ⟨"db.example.org", 33060⟩ { database := some "test", tls := ⟨.REQUIRED, ""⟩ },
        ⟨none, none, some refused⟩⟩ :: [local_endpoint])).1 = .error refused :=
  (handshake_failure_propagates sample_codes (Session_builder.init false)
    ⟨"db.example.org", 33060⟩ { database := some "test", tls := ⟨.REQUIRED, ""⟩ }
    ⟨none, none, some refused⟩ refused [local_endpoint]
    rfl (by decide) (by decide) rfl rfl).2.2.2.1

/-! ## The builder state across invocations -/

theorem call_TCPIP_sb (cdkerrc : Cdkerrc) (st : State) (src : ds.TCPIP)
    (options : ds.TCPIP_Options) (ext : External) :
    (Session_builder.call_TCPIP cdkerrc st src options ext).2.sb.m_attempts =
      (st.sb.m_attempts + 1) % 2 ^ UINT_BITS ∧
    (Session_builder.call_TCPIP cdkerrc st src options ext).2.sb.m_throw_errors =
      st.sb.m_throw_errors ∧
    ((Session_builder.call_TCPIP cdkerrc st src options ext).1 ≠ .ok false →
      (Session_builder.call_TCPIP cdkerrc st src options ext).2.sb.m_error = st.sb.m_error) ∧
    ((Session_builder.call_TCPIP cdkerrc st src options ext).1 ≠ .ok true →
      (Session_builder.call_TCPIP cdkerrc st src options ext).2.sb.m_sess = st.sb.m_sess ∧
      (Session_builder.call_TCPIP cdkerrc st src options ext).2.sb.m_conn = st.sb.m_conn ∧
      (Session_builder.call_TCPIP cdkerrc st src options ext).2.sb.m_database =
        st.sb.m_database) ∧
    ((Session_builder.call_TCPIP cdkerrc st src options ext).1 = .ok false →
      ∃ e, ext.connect = some e ∧ ¬ cdkerrc.Fatal e.code ∧ st.sb.m_throw_errors = false ∧
        (Session_builder.call_TCPIP cdkerrc st src options ext).2.sb.m_error = some e) := by
  cases hc : ext.connect with
  | some e =>
    rw [call_TCPIP_connect_fails cdkerrc st src options ext e hc]
    by_cases h : st.sb.m_throw_errors = true ∨ cdkerrc.Fatal e.code
    · simp [if_pos h]
    · rw [if_neg h]
      have h1 : st.sb.m_throw_errors = false := by
        cases hm : st.sb.m_throw_errors with
        | true => exact absurd (Or.inl hm) h
        | false => rfl
      have h2 : ¬ cdkerrc.Fatal e.code := fun hf => h (Or.inr hf)
      simp [h1, h2]
  | none =>
    rw [call_TCPIP_connected cdkerrc st src options ext hc]
    rcases tls_outcome cdkerrc (Connection.TCPIP src.host src.port) options.tls ext with
      ⟨r, evs⟩
    rcases r with e | w <;> simp

theorem call_Unix_socket_sb (cdkerrc : Cdkerrc) (st : State) (src : ds.Unix_socket)
    (options : ds.Options) (ext : External) :
    (Session_builder.call_Unix_socket cdkerrc st src options ext).2.sb.m_attempts =
      (st.sb.m_attempts + 1) % 2 ^ UINT_BITS ∧
    (Session_builder.call_Unix_socket cdkerrc st src options ext).2.sb.m_throw_errors =
      st.sb.m_throw_errors ∧
    ((Session_builder.call_Unix_socket cdkerrc st src options ext).1 ≠ .ok false →
      (Session_builder.call_Unix_socket cdkerrc st src options ext).2.sb.m_error =
        st.sb.m_error) ∧
    ((Session_builder.call_Unix_socket cdkerrc st src options ext).1 ≠ .ok true →
      (Session_builder.call_Unix_socket cdkerrc st src options ext).2.sb.m_sess = st.sb.m_sess ∧
      (Session_builder.call_Unix_socket cdkerrc st src options ext).2.sb.m_conn = st.sb.m_conn ∧
      (Session_builder.call_Unix_socket cdkerrc st src options ext).2.sb.m_database =
        st.sb.m_database) ∧
    ((Session_builder.call_Unix_socket cdkerrc st src options ext).1 = .ok false →
      ∃ e, ext.connect = some e ∧ ¬ cdkerrc.Fatal e.code ∧ st.sb.m_throw_errors = false ∧
        (Session_builder.call_Unix_socket cdkerrc st src options ext).2.sb.m_error =
          some e) := by
  cases hc : ext.connect with
  | some e =>
    rw [call_Unix_socket_connect_fails cdkerrc st src options ext e hc]
    by_cases h : st.sb.m_throw_errors = true ∨ cdkerrc.Fatal e.code
    · simp [if_pos h]
    · rw [if_neg h]
      have h1 : st.sb.m_throw_errors = false := by
        cases hm : st.sb.m_throw_errors with
        | true => exact absurd (Or.inl hm) h
        | false => rfl
      have h2 : ¬ cdkerrc.Fatal e.code := fun hf => h (Or.inr hf)
      simp [h1, h2]
  | none =>
    rw [call_Unix_socket_connected cdkerrc st src options ext hc]
    simp

/-- The attempt counter after the builder has been invoked on a descriptor. -/
theorem call_attempts (cdkerrc : Cdkerrc) (st : State) (x : Candidate) :
    (Session_builder.call cdkerrc st x).2.sb.m_attempts =
      match x.src with
      | .TCPIP_old _ _ => st.sb.m_attempts
      | _ => (st.sb.m_attempts + 1) % 2 ^ UINT_BITS := by
  obtain ⟨src, ext⟩ := x
  cases src with
  | TCPIP d o =>
    exact (call_TCPIP_sb cdkerrc (st.log [Event.invoke (.TCPIP d o)]) d o ext).1
  | Unix_socket d o =>
    exact (call_Unix_socket_sb cdkerrc (st.log [Event.invoke (.Unix_socket d o)]) d o ext).1
  | TCPIP_old d o => rfl

theorem call_frame (cdkerrc : Cdkerrc) (st : State) (x : Candidate) :
    (Session_builder.call cdkerrc st x).2.sb.m_throw_errors = st.sb.m_throw_errors ∧
    ((Session_builder.call cdkerrc st x).1 ≠ .ok false →
      (Session_builder.call cdkerrc st x).2.sb.m_error = st.sb.m_error) ∧
    ((Session_builder.call cdkerrc st x).1 ≠ .ok true →
      (Session_builder.call cdkerrc st x).2.sb.m_sess = st.sb.m_sess ∧
      (Session_builder.call cdkerrc st x).2.sb.m_conn = st.sb.m_conn ∧
      (Session_builder.call cdkerrc st x).2.sb.m_database = st.sb.m_database) ∧
    ((Session_builder.call cdkerrc st x).1 = .ok false →
      ∃ e, x.connect_fails e ∧ ¬ cdkerrc.Fatal e.code ∧ st.sb.m_throw_errors = false ∧
        (Session_builder.call cdkerrc st x).2.sb.m_error = some e) := by
  obtain ⟨src, ext⟩ := x
  cases src with
  | TCPIP d o =>
    have h := call_TCPIP_sb cdkerrc (st.log [Event.invoke (.TCPIP d o)]) d o ext
    refine ⟨h.2.1, h.2.2.1, h.2.2.2.1, fun hf => ?_⟩
    obtain ⟨e, he, hcode, hm, herr⟩ := h.2.2.2.2 hf
    exact ⟨e, ⟨trivial, he⟩, hcode, hm, herr⟩
  | Unix_socket d o =>
    have h := call_Unix_socket_sb cdkerrc (st.log [Event.invoke (.Unix_socket d o)]) d o ext
    refine ⟨h.2.1, h.2.2.1, h.2.2.2.1, fun hf => ?_⟩
    obtain ⟨e, he, hcode, hm, herr⟩ := h.2.2.2.2 hf
    exact ⟨e, ⟨trivial, he⟩, hcode, hm, herr⟩
  | TCPIP_old d o =>
    refine ⟨rfl, fun _ => rfl, fun _ => ⟨rfl, rfl, rfl⟩, fun hf => ?_⟩
    simp [Session_builder.call, Session_builder.call_TCPIP_old] at hf

theorem visit_false_inv (cdkerrc : Cdkerrc) (l : List Candidate) :
    ∀ st st1 : State, ds.Multi_source.visit cdkerrc st l = (.ok false, st1) →
      (∀ x ∈ l, x.fails_recoverably cdkerrc) ∧
      (l ≠ [] → st.sb.m_throw_errors = false) ∧
      st1.sb.m_throw_errors = st.sb.m_throw_errors ∧
      st1.sb.m_error = last_error l st.sb.m_error ∧
      st1.sb.m_sess = st.sb.m_sess ∧ st1.sb.m_conn = st.sb.m_conn ∧
      st1.sb.m_database = st.sb.m_database := by
  induction l with
  | nil =>
    intro st st1 h
    simp only [ds.Multi_source.visit, Prod.mk.injEq, true_and] at h
    subst h
    simp [last_error]
  | cons x rest ih =>
    intro st st1 h
    simp only [ds.Multi_source.visit] at h
    have hf := call_frame cdkerrc st x
    rcases hr : Session_builder.call cdkerrc st x with ⟨r, st2⟩
    rw [hr] at h hf
    rcases r with e | (_ | _)
    · simp at h
    · simp only at h
      obtain ⟨hrec, _, hm, herr, hs, hc, hd⟩ := ih st2 st1 h
      obtain ⟨e, hfail, hcode, hmode, hlast⟩ := hf.2.2.2 rfl
      obtain ⟨hs2, hc2, hd2⟩ := hf.2.2.1 (by simp)
      refine ⟨?_, fun _ => hmode, by rw [hm, hf.1], ?_, by rw [hs, hs2], by rw [hc, hc2],
        by rw [hd, hd2]⟩
      · intro y hy
        rcases List.mem_cons.mp hy with hy | hy
        · subst hy
          exact ⟨e, hfail, hcode⟩
        · exact hrec y hy
      · rw [herr, last_error_cons, hlast, hfail.2]
    · simp at h

theorem visit_false_attempts (cdkerrc : Cdkerrc) (l : List Candidate) (st st1 : State)
    (h : ds.Multi_source.visit cdkerrc st l = (.ok false, st1))
    (hlt : st.sb.m_attempts < 2 ^ UINT_BITS) :
    st1.sb.m_attempts = (st.sb.m_attempts + l.length) % 2 ^ UINT_BITS := by
  obtain ⟨hall, hmode, _⟩ := visit_false_inv cdkerrc l st st1 h
  cases l with
  | nil =>
    simp only [ds.Multi_source.visit, Prod.mk.injEq, true_and] at h
    subst h
    simp [Nat.mod_eq_of_lt hlt]
  | cons x rest =>
    obtain ⟨tr, htr⟩ := visit_all_recoverable cdkerrc (x :: rest) st (hmode (by simp)) hlt hall
    rw [htr] at h
    simp only [Prod.mk.injEq, true_and] at h
    rw [← h]

/-- C14, as amended. Each invocation of the network or local entry point,
whatever its outcome, increments `m_attempts` by one modulo 2^32; the entry
point for a legacy endpoint leaves it unchanged. Hence when the endpoints
before `x` gave no session and the invocation on `x` raises, `m_attempts` is
the position of `x` (counted from 1, modulo 2^32) if `x` is a network or local
endpoint, and one less if `x` is a legacy endpoint. -/
theorem attempt_counter (cdkerrc : Cdkerrc) (strict : Bool) (pre : List Candidate)
    (x : Candidate) (st1 st2 : State) (e : Error)
    (hpre : ds.Multi_source.visit cdkerrc (Session_builder.init strict) pre = (.ok false, st1))
    (hx : Session_builder.call cdkerrc st1 x = (.error e, st2)) :
    (∀ (st : State) (y : Candidate),
      (Session_builder.call cdkerrc st y).2.sb.m_attempts =
        match y.src with
        | .TCPIP_old _ _ => st.sb.m_attempts
        | _ => (st.sb.m_attempts + 1) % 2 ^ 32) ∧
    st2.sb.m_attempts =
      (match x.src with
       | .TCPIP_old _ _ => pre.length % 2 ^ 32
       | _ => (pre.length + 1) % 2 ^ 32) ∧
    (pre.length + 1 < 2 ^ 32 → (∀ d o, x.src ≠ .TCPIP_old d o) →
      st2.sb.m_attempts = pre.length + 1) := by
  have h1 : st1.sb.m_attempts = pre.length % 2 ^ 32 := by
    have h := visit_false_attempts cdkerrc pre (Session_builder.init strict) st1 hpre
      (by simp [Session_builder.init])
    simpa [Session_builder.init, UINT_BITS] using h
  have h2 := call_attempts cdkerrc st1 x
  rw [hx] at h2
  simp only at h2
  have hstep : st2.sb.m_attempts =
      (match x.src with
       | .TCPIP_old _ _ => pre.length % 2 ^ 32
       | _ => (pre.length + 1) % 2 ^ 32) := by
    rw [h2, h1]
    cases x.src with
    | TCPIP d o => simp [UINT_BITS]
    | Unix_socket d o => simp [UINT_BITS]
    | TCPIP_old d o => rfl
  refine ⟨fun st y => call_attempts cdkerrc st y, hstep, ?_⟩
  intro hlt hkind
  rw [hstep]
  cases hsrc : x.src with
  | TCPIP d o => exact Nat.mod_eq_of_lt hlt
  | Unix_socket d o => exact Nat.mod_eq_of_lt hlt
  | TCPIP_old d o => exact absurd hsrc (hkind d o)

theorem attempt_counter_witness :
    (Session_builder.call sample_codes
      (ds.Multi_source.visit sample_codes (Session_builder.init false) [refused_endpoint]).2
      (sample_tcpip .PREFERRED "" ⟨some denied, none, none⟩)).2.sb.m_attempts = 1 + 1 :=
  (attempt_counter sample_codes false [refused_endpoint]
    (sample_tcpip .PREFERRED "" ⟨some denied, none, none⟩)
    (ds.Multi_source.visit sample_codes (Session_builder.init false) [refused_endpoint]).2
    (Session_builder.call sample_codes
      (ds.Multi_source.visit sample_codes (Session_builder.init false) [refused_endpoint]).2
      (sample_tcpip .PREFERRED "" ⟨some denied, none, none⟩)).2
    denied rfl rfl).2.2 (by decide) (fun d o h => by simp [sample_tcpip] at h)

/-- C14 fails as stated: the invocation of the builder on a legacy endpoint,
first in its list, raises and leaves `m_attempts` at 0, not 1. -/
theorem attempt_counter_counterexample :
    (Session_builder.call sample_codes (Session_builder.init false) legacy_endpoint).1 =
      .error ⟨1, "Not supported"⟩ ∧
    (Session_builder.call sample_codes (Session_builder.init false)
      legacy_endpoint).2.sb.m_attempts = 0 ∧
    (Session.from_Multi_source sample_codes [legacy_endpoint]).1 =
      .error ⟨1, "Not supported"⟩ ∧
    (Session.from_Multi_source sample_codes [legacy_endpoint]).2.sb.m_attempts = 0 :=
  ⟨rfl, rfl, rfl, rfl⟩

/-! ## Return contract of the entry points -/

theorem call_TCPIP_true (cdkerrc : Cdkerrc) (st : State) (src : ds.TCPIP)
    (options : ds.TCPIP_Options) (ext : External)
    (h : (Session_builder.call_TCPIP cdkerrc st src options ext).1 = .ok true) :
    ∃ c, (Session_builder.call_TCPIP cdkerrc st src options ext).2.sb.m_conn = some c ∧
      (Session_builder.call_TCPIP cdkerrc st src options ext).2.sb.m_sess =
        some ⟨c, options.toOptions⟩ ∧
      (Session_builder.call_TCPIP cdkerrc st src options ext).2.sb.m_database =
        options.database ∧
      (options.tls.ssl_mode ≠ TLS.SSL_MODE.DISABLED ∧ ext.reply = none →
        c = Connection.TLS (Connection.TCPIP src.host src.port) options.tls) ∧
      (options.tls.ssl_mode = TLS.SSL_MODE.DISABLED ∨ (∃ r, ext.reply = some r) →
        c = Connection.TCPIP src.host src.port) := by
  cases hc : ext.connect with
  | some e =>
    rw [call_TCPIP_connect_fails cdkerrc st src options ext e hc] at h
    split_ifs at h
    simp at h
  | none =>
    rw [call_TCPIP_connected cdkerrc st src options ext hc] at h ⊢
    rcases ho : tls_outcome cdkerrc (Connection.TCPIP src.host src.port) options.tls ext with
      ⟨r, evs⟩
    rw [ho] at h
    rcases r with e | w
    · simp at h
    · refine ⟨w.getD (Connection.TCPIP src.host src.port), rfl, rfl, rfl, ?_, ?_⟩
      · intro hacc
        rcases tls_outcome_ok cdkerrc _ _ ext w evs ho with ⟨hw, _⟩ | ⟨_, hd | ⟨r, hr⟩⟩
        · rw [hw]
          rfl
        · exact absurd hd hacc.1
        · rw [hacc.2] at hr
          simp at hr
      · intro hdec
        rcases tls_outcome_ok cdkerrc _ _ ext w evs ho with ⟨_, hm, hr, _⟩ | ⟨hw, _⟩
        · rcases hdec with hd | ⟨r, hr2⟩
          · exact absurd hd hm
          · rw [hr] at hr2
            simp at hr2
        · rw [hw]
          rfl

theorem call_Unix_socket_true (cdkerrc : Cdkerrc) (st : State) (src : ds.Unix_socket)
    (options : ds.Options) (ext : External)
    (h : (Session_builder.call_Unix_socket cdkerrc st src options ext).1 = .ok true) :
    (Session_builder.call_Unix_socket cdkerrc st src options ext).2.sb.m_conn =
      some (Connection.Unix_socket src.path) ∧
    (Session_builder.call_Unix_socket cdkerrc st src options ext).2.sb.m_sess =
      some ⟨Connection.Unix_socket src.path, options⟩ ∧
    (Session_builder.call_Unix_socket cdkerrc st src options ext).2.sb.m_database =
      options.database := by
  cases hc : ext.connect with
  | some e =>
    rw [call_Unix_socket_connect_fails cdkerrc st src options ext e hc] at h
    split_ifs at h
    simp at h
  | none =>
    rw [call_Unix_socket_connected cdkerrc st src options ext hc]
    exact ⟨rfl, rfl, rfl⟩

/-- C15. Return contract of the network and local entry points, invoked on a
builder that is fresh or has only seen invocations that returned false. The
entry point returns true exactly when it leaves a session in `m_sess`; then
`m_conn` holds the transport the session is bound to, which is the security
wrapper when the upgrade was accepted and the plain transport otherwise, and
`m_database` is `options.database()`. It returns false only when `connect()`
failed with an error outside the fatal set and the builder is not strict, and
then `m_sess`, `m_conn` and `m_database` are still null. -/
theorem entry_point_return_contract (cdkerrc : Cdkerrc) (strict : Bool)
    (pre : List Candidate) (st : State) (ext : External)
    (hst : ds.Multi_source.visit cdkerrc (Session_builder.init strict) pre = (.ok false, st)) :
    (∀ (src : ds.TCPIP) (options : ds.TCPIP_Options),
      ((Session_builder.call_TCPIP cdkerrc st src options ext).1 = .ok true ↔
        (Session_builder.call_TCPIP cdkerrc st src options ext).2.sb.m_sess ≠ none) ∧
      ((Session_builder.call_TCPIP cdkerrc st src options ext).1 = .ok true →
        ∃ c, (Session_builder.call_TCPIP cdkerrc st src options ext).2.sb.m_conn = some c ∧
          (Session_builder.call_TCPIP cdkerrc st src options ext).2.sb.m_sess =
            some ⟨c, options.toOptions⟩ ∧
          (Session_builder.call_TCPIP cdkerrc st src options ext).2.sb.m_database =
            options.database ∧
          (options.tls.ssl_mode ≠ TLS.SSL_MODE.DISABLED ∧ ext.reply = none →
            c = Connection.TLS (Connection.TCPIP src.host src.port) options.tls) ∧
          (options.tls.ssl_mode = TLS.SSL_MODE.DISABLED ∨ (∃ r, ext.reply = some r) →
            c = Connection.TCPIP src.host src.port)) ∧
      ((Session_builder.call_TCPIP cdkerrc st src options ext).1 = .ok false →
        (∃ e, ext.connect = some e ∧ ¬ cdkerrc.Fatal e.code) ∧ strict = false ∧
        (Session_builder.call_TCPIP cdkerrc st src options ext).2.sb.m_sess = none ∧
        (Session_builder.call_TCPIP cdkerrc st src options ext).2.sb.m_conn = none ∧
        (Session_builder.call_TCPIP cdkerrc st src options ext).2.sb.m_database = none)) ∧
    (∀ (src : ds.Unix_socket) (options : ds.Options),
      ((Session_builder.call_Unix_socket cdkerrc st src options ext).1 = .ok true ↔
        (Session_builder.call_Unix_socket cdkerrc st src options ext).2.sb.m_sess ≠ none) ∧
      ((Session_builder.call_Unix_socket cdkerrc st src options ext).1 = .ok true →
        (Session_builder.call_Unix_socket cdkerrc st src options ext).2.sb.m_conn =
          some (Connection.Unix_socket src.path) ∧
        (Session_builder.call_Unix_socket cdkerrc st src options ext).2.sb.m_sess =
          some ⟨Connection.Unix_socket src.path, options⟩ ∧
        (Session_builder.call_Unix_socket cdkerrc st src options ext).2.sb.m_database =
          options.database) ∧
      ((Session_builder.call_Unix_socket cdkerrc st src options ext).1 = .ok false →
        (∃ e, ext.connect = some e ∧ ¬ cdkerrc.Fatal e.code) ∧ strict = false ∧
        (Session_builder.call_Unix_socket cdkerrc st src options ext).2.sb.m_sess = none ∧
        (Session_builder.call_Unix_socket cdkerrc st src options ext).2.sb.m_conn = none ∧
        (Session_builder.call_Unix_socket cdkerrc st src options ext).2.sb.m_database =
          none)) := by
  obtain ⟨_, _, hm, _, hs, hc, hd⟩ :=
    visit_false_inv cdkerrc pre (Session_builder.init strict) st hst
  have hm0 : st.sb.m_throw_errors = strict := hm
  have hs0 : st.sb.m_sess = none := hs
  have hc0 : st.sb.m_conn = none := hc
  have hd0 : st.sb.m_database = none := hd
  constructor
  · intro src options
    have hsb := call_TCPIP_sb cdkerrc st src options ext
    refine ⟨⟨fun h => ?_, fun h => ?_⟩, call_TCPIP_true cdkerrc st src options ext, fun h => ?_⟩
    · obtain ⟨c, _, hsess, _⟩ := call_TCPIP_true cdkerrc st src options ext h
      rw [hsess]
      simp
    · by_contra hne
      exact h ((hsb.2.2.2.1 hne).1.trans hs0)
    · obtain ⟨e, he, hcode, hmode, _⟩ := hsb.2.2.2.2 h
      obtain ⟨h1, h2, h3⟩ := hsb.2.2.2.1 (by rw [h]; simp)
      exact ⟨⟨e, he, hcode⟩, hm0.symm.trans hmode, h1.trans hs0, h2.trans hc0, h3.trans hd0⟩
  · intro src options
    have hsb := call_Unix_socket_sb cdkerrc st src options ext
    refine ⟨⟨fun h => ?_, fun h => ?_⟩, call_Unix_socket_true cdkerrc st src options ext,
      fun h => ?_⟩
    · obtain ⟨_, hsess, _⟩ := call_Unix_socket_true cdkerrc st src options ext h
      rw [hsess]
      simp
    · by_contra hne
      exact h ((hsb.2.2.2.1 hne).1.trans hs0)
    · obtain ⟨e, he, hcode, hmode, _⟩ := hsb.2.2.2.2 h
      obtain ⟨h1, h2, h3⟩ := hsb.2.2.2.1 (by rw [h]; simp)
      exact ⟨⟨e, he, hcode⟩, hm0.symm.trans hmode, h1.trans hs0, h2.trans hc0, h3.trans hd0⟩

theorem entry_point_return_contract_witness :
    (Session_builder.call_TCPIP sample_codes
      (ds.Multi_source.visit sample_codes (Session_builder.init false) [refused_endpoint]).2
      ⟨"db.example.org", 33060⟩ { database := some "test", tls := ⟨.REQUIRED, ""⟩ }
      ⟨none, none, none⟩).1 = .ok true ↔
    (Session_builder.call_TCPIP sample_codes
      (ds.Multi_source.visit sample_codes (Session_builder.init false) [refused_endpoint]).2
      ⟨"db.example.org", 33060⟩ { database := some "test", tls := ⟨.REQUIRED, ""⟩ }
      ⟨none, none, none⟩).2.sb.m_sess ≠ none :=
  ((entry_point_return_contract sample_codes false [refused_endpoint]
    (ds.Multi_source.visit sample_codes (Session_builder.init false) [refused_endpoint]).2
    ⟨none, none, none⟩ rfl).1 ⟨"db.example.org", 33060⟩
    { database := some "test", tls := ⟨.REQUIRED, ""⟩ }).1

/-! ## Retention of the last recoverable error -/

/-- C16. After a sequence of invocations that all returned false, `m_error`
holds the error of the most recent failed `connect()`: each recoverable
failure overwrites the error stored before. An invocation that returns true
or raises leaves `m_error` as it was. -/
theorem last_recoverable_error_retained (cdkerrc : Cdkerrc) (st st1 : State)
    (l : List Candidate)
    (h : ds.Multi_source.visit cdkerrc st l = (.ok false, st1)) :
    st1.sb.m_error = last_error l st.sb.m_error ∧
    (∀ pre x, l = pre ++ [x] → ∃ e, x.connect_fails e ∧ st1.sb.m_error = some e) ∧
    (∀ (st0 : State) (y : Candidate), (Session_builder.call cdkerrc st0 y).1 ≠ .ok false →
      (Session_builder.call cdkerrc st0 y).2.sb.m_error = st0.sb.m_error) := by
  obtain ⟨hall, _, _, herr, _⟩ := visit_false_inv cdkerrc l st st1 h
  refine ⟨herr, ?_, fun st0 y => (call_frame cdkerrc st0 y).2.1⟩
  intro pre x hl
  obtain ⟨e, hfail, _⟩ := hall x (by rw [hl]; simp)
  refine ⟨e, hfail, ?_⟩
  rw [herr, hl]
  simp [last_error, hfail.2]

theorem last_recoverable_error_retained_witness :
    (ds.Multi_source.visit sample_codes (Session_builder.init false)
      [sample_tcpip .PREFERRED "" ⟨some ⟨110, "Connection timed out"⟩, none, none⟩,
       refused_endpoint]).2.sb.m_error = some refused :=
  (last_recoverable_error_retained sample_codes (Session_builder.init false)
    (ds.Multi_source.visit sample_codes (Session_builder.init false)
      [sample_tcpip .PREFERRED "" ⟨some ⟨110, "Connection timed out"⟩, none, none⟩,
       refused_endpoint]).2
    [sample_tcpip .PREFERRED "" ⟨some ⟨110, "Connection timed out"⟩, none, none⟩,
     refused_endpoint] rfl).1

/-! ## The messages synthesized by construction from a list -/

theorem last_error_some (l : List Candidate) :
    ∀ before : Option Error, (∀ x ∈ l, ∃ e, x.ext.connect = some e) → l ≠ [] →
      ∃ e, last_error l before = some e := by
  induction l with
  | nil => intro _ _ h; exact absurd rfl h
  | cons x rest ih =>
    intro before hall _
    rw [last_error_cons]
    cases rest with
    | nil =>
      obtain ⟨e, he⟩ := hall x (List.mem_cons_self x [])
      exact ⟨e, by simp [last_error, he]⟩
    | cons y ys =>
      exact ih x.ext.connect (fun z hz => hall z (List.mem_cons_of_mem x hz)) (by simp)

theorem call_true_sess (cdkerrc : Cdkerrc) (st : State) (x : Candidate)
    (h : (Session_builder.call cdkerrc st x).1 = .ok true) :
    (Session_builder.call cdkerrc st x).2.sb.m_sess ≠ none := by
  obtain ⟨src, ext⟩ := x
  cases src with
  | TCPIP d o =>
    obtain ⟨c, _, hs, _⟩ :=
      call_TCPIP_true cdkerrc (st.log [Event.invoke (.TCPIP d o)]) d o ext h
    intro hn
    have hs2 : (Session_builder.call cdkerrc st ⟨.TCPIP d o, ext⟩).2.sb.m_sess =
        some ⟨c, o.toOptions⟩ := hs
    rw [hs2] at hn
    simp at hn
  | Unix_socket d o =>
    obtain ⟨_, hs, _⟩ :=
      call_Unix_socket_true cdkerrc (st.log [Event.invoke (.Unix_socket d o)]) d o ext h
    intro hn
    have hs2 : (Session_builder.call cdkerrc st ⟨.Unix_socket d o, ext⟩).2.sb.m_sess =
        some ⟨Connection.Unix_socket d.path, o⟩ := hs
    rw [hs2] at hn
    simp at hn
  | TCPIP_old d o =>
    simp [Session_builder.call, Session_builder.call_TCPIP_old] at h

theorem visit_true_sess (cdkerrc : Cdkerrc) (l : List Candidate) :
    ∀ st st1 : State, ds.Multi_source.visit cdkerrc st l = (.ok true, st1) →
      st1.sb.m_sess ≠ none := by
  induction l with
  | nil =>
    intro st st1 h
    simp [ds.Multi_source.visit] at h
  | cons x rest ih =>
    intro st st1 h
    simp only [ds.Multi_source.visit] at h
    have ht := call_true_sess cdkerrc st x
    rcases hr : Session_builder.call cdkerrc st x with ⟨r, st2⟩
    rw [hr] at h ht
    rcases r with e | (_ | _)
    · simp at h
    · simp only at h
      exact ih st2 st1 h
    · simp only [Prod.mk.injEq, true_and] at h
      subst h
      exact ht rfl

/-- C17, as amended. When the iteration over a list ends without a session and
without a raised error, `m_attempts` is the number of endpoints modulo 2^32 and
a non-empty list has left an error in `m_error`; so the state with
`m_attempts` = 1, `m_error` empty and `m_sess` null is not reached, and the
message "Could not connect to the given data source" is not produced. The
constructor raises the 'any of the given data sources' error exactly when the
length of the list is not congruent to 1 modulo 2^32, and rethrows the stored
error otherwise. -/
theorem fallback_message_unreachable (cdkerrc : Cdkerrc) (l : ds.Multi_source) (b : Bool)
    (st1 : State)
    (hv : ds.Multi_source.visit cdkerrc (Session_builder.init false) l = (.ok b, st1))
    (hs : st1.sb.m_sess = none) :
    st1.sb.m_attempts = l.length % 2 ^ 32 ∧
    (l ≠ [] → ∃ e, st1.sb.m_error = some e) ∧
    ¬ (st1.sb.m_attempts = 1 ∧ st1.sb.m_error = none ∧ st1.sb.m_sess = none) ∧
    (l.length % 2 ^ 32 ≠ 1 →
      Session.from_Multi_source cdkerrc l = (.error (no_candidate_error cdkerrc), st1)) ∧
    (l.length % 2 ^ 32 = 1 →
      ∃ e, st1.sb.m_error = some e ∧
        Session.from_Multi_source cdkerrc l = (.error e, st1)) := by
  have hb : b = false := by
    cases b with
    | false => rfl
    | true => exact absurd hs (visit_true_sess cdkerrc l _ st1 hv)
  subst hb
  obtain ⟨hall, _, _, herr, _⟩ := visit_false_inv cdkerrc l _ st1 hv
  have hatt : st1.sb.m_attempts = l.length % 2 ^ 32 := by
    have h := visit_false_attempts cdkerrc l (Session_builder.init false) st1 hv
      (by simp [Session_builder.init])
    simpa [Session_builder.init, UINT_BITS] using h
  have hsome : l ≠ [] → ∃ e, st1.sb.m_error = some e := by
    intro hne
    rw [herr]
    refine last_error_some l _ (fun x hx => ?_) hne
    obtain ⟨e, hfail, _⟩ := hall x hx
    exact ⟨e, hfail.2⟩
  have hne1 : st1.sb.m_attempts = 1 → l ≠ [] := by
    intro h1 hnil
    rw [hatt, hnil] at h1
    simp at h1
  refine ⟨hatt, hsome, ?_, ?_, ?_⟩
  · rintro ⟨h1, hnone, _⟩
    obtain ⟨e, he⟩ := hsome (hne1 h1)
    rw [he] at hnone
    simp at hnone
  · intro hmod
    have h1 : ¬ (1 = st1.sb.m_attempts) := by
      rw [hatt]
      exact fun h => hmod h.symm
    have hd : decide (1 = st1.sb.m_attempts) = false := by simp [h1]
    simp only [Session.from_Multi_source, hv, hs, hd, if_neg h1, no_candidate_error]
  · intro hmod
    have h1 : 1 = st1.sb.m_attempts := by
      rw [hatt]
      exact hmod.symm
    obtain ⟨e, he⟩ := hsome (hne1 h1.symm)
    have hd : decide (1 = st1.sb.m_attempts) = true := by simp [h1]
    refine ⟨e, he, ?_⟩
    simp only [Session.from_Multi_source, hv, hs, hd, he]

theorem fallback_message_unreachable_witness :
    Session.from_Multi_source sample_codes [refused_endpoint, refused_endpoint] =
      (.error (no_candidate_error sample_codes),
        (ds.Multi_source.visit sample_codes (Session_builder.init false)
          [refused_endpoint, refused_endpoint]).2) :=
  (fallback_message_unreachable sample_codes [refused_endpoint, refused_endpoint] false
    (ds.Multi_source.visit sample_codes (Session_builder.init false)
      [refused_endpoint, refused_endpoint]).2 rfl rfl).2.2.2.1 (by decide)

theorem visit_replicate_wrap (cdkerrc : Cdkerrc) (x : Candidate) (e : Error) (n : Nat)
    (hn : n % 2 ^ UINT_BITS = 1) (hfail : x.connect_fails e) (hcode : ¬ cdkerrc.Fatal e.code) :
    (ds.Multi_source.visit cdkerrc (Session_builder.init false) (List.replicate n x)).1 =
      .ok false ∧
    (ds.Multi_source.visit cdkerrc (Session_builder.init false)
      (List.replicate n x)).2.sb.m_sess = none ∧
    (ds.Multi_source.visit cdkerrc (Session_builder.init false)
      (List.replicate n x)).2.sb.m_attempts = 1 := by
  have hall : ∀ y ∈ List.replicate n x, y.fails_recoverably cdkerrc := by
    intro y hy
    rw [List.eq_of_mem_replicate hy]
    exact ⟨e, hfail, hcode⟩
  obtain ⟨tr, h⟩ := visit_all_recoverable cdkerrc _ (Session_builder.init false) rfl
    (by simp [Session_builder.init]) hall
  rw [h]
  refine ⟨rfl, rfl, ?_⟩
  simp only [Session_builder.init, Nat.zero_add, List.length_replicate, hn]

/-- C17 fails as stated: over a list of 2^32 + 1 endpoints that all fail
recoverably the iteration ends without a session and without a raised error
with `m_attempts` = 1, not the number of endpoints, and although the list has
more than two endpoints the constructor raises the error of the last endpoint,
not the synthesized one. -/
theorem fallback_message_counterexample :
    (ds.Multi_source.visit sample_codes (Session_builder.init false)
      (List.replicate (2 ^ 32 + 1) refused_endpoint)).1 = .ok false ∧
    (ds.Multi_source.visit sample_codes (Session_builder.init false)
      (List.replicate (2 ^ 32 + 1) refused_endpoint)).2.sb.m_sess = none ∧
    (ds.Multi_source.visit sample_codes (Session_builder.init false)
      (List.replicate (2 ^ 32 + 1) refused_endpoint)).2.sb.m_attempts = 1 ∧
    (List.replicate (2 ^ 32 + 1) refused_endpoint).length = 2 ^ 32 + 1 ∧
    (Session.from_Multi_source sample_codes
      (List.replicate (2 ^ 32 + 1) refused_endpoint)).1 = .error refused ∧
    refused ≠ no_candidate_error sample_codes := by
  have h := visit_replicate_wrap sample_codes refused_endpoint refused (2 ^ 32 + 1)
    (by simp [UINT_BITS]) ⟨trivial, rfl⟩ (by decide)
  exact ⟨h.1, h.2.1, h.2.2, List.length_replicate _ _,
    from_Multi_source_replicate sample_codes refused_endpoint refused (2 ^ 32 + 1)
      (by simp [UINT_BITS]) ⟨trivial, rfl⟩ (by decide), by decide⟩

/-! ## A single endpoint against a list of one endpoint -/

theorem from_Multi_source_singleton_fails (cdkerrc : Cdkerrc) (x : Candidate) (e : Error)
    (hfail : x.connect_fails e) :
    (Session.from_Multi_source cdkerrc [x]).1 = .error e := by
  by_cases hcode : cdkerrc.Fatal e.code
  · obtain ⟨tr, htr⟩ := call_connect_fails cdkerrc (Session_builder.init false) x e hfail
    rw [if_pos (Or.inr hcode)] at htr
    simp only [Session.from_Multi_source, ds.Multi_source.visit, htr]
  · have hrec : ∀ y ∈ [x], y.fails_recoverably cdkerrc := by
      intro y hy
      rw [List.mem_singleton] at hy
      subst hy
      exact ⟨e, hfail, hcode⟩
    obtain ⟨st, _, _, h⟩ := from_Multi_source_all_recoverable cdkerrc [x] hrec
    rw [h]
    have hl : last_error [x] none = some e := by simp [last_error, hfail.2]
    have h1 : decide (1 = [x].length % 2 ^ UINT_BITS) = true := by
      rw [List.length_singleton]
      decide
    rw [hl, h1]

/-- C18. Construction from a single network endpoint and construction from the
list holding only that endpoint agree, for every endpoint, options value and
behaviour of the collaborators: either both raise the same error, or both
complete with the same session object and the same transport. The strict
flag, set in the first and clear in the second, changes neither. -/
theorem single_and_list_agree (cdkerrc : Cdkerrc) (src : ds.TCPIP)
    (options : ds.TCPIP_Options) (ext : External) :
    (Session.from_TCPIP cdkerrc src options ext).1.map
        (fun s => (s.m_session, s.m_connection)) =
      (Session.from_Multi_source cdkerrc [⟨.TCPIP src options, ext⟩]).1.map
        (fun s => (s.m_session, s.m_connection)) ∧
    (∀ e, (Session.from_TCPIP cdkerrc src options ext).1 = .error e ↔
      (Session.from_Multi_source cdkerrc [⟨.TCPIP src options, ext⟩]).1 = .error e) ∧
    (∀ s, (Session.from_TCPIP cdkerrc src options ext).1 = .ok s →
      ∃ s', (Session.from_Multi_source cdkerrc [⟨.TCPIP src options, ext⟩]).1 = .ok s' ∧
        s'.m_session = s.m_session ∧ s'.m_connection = s.m_connection) := by
  have key : (Session.from_TCPIP cdkerrc src options ext).1.map
        (fun s => (s.m_session, s.m_connection)) =
      (Session.from_Multi_source cdkerrc [⟨.TCPIP src options, ext⟩]).1.map
        (fun s => (s.m_session, s.m_connection)) := by
    cases hc : ext.connect with
    | some e =>
      have h1 : (Session.from_TCPIP cdkerrc src options ext).1 = .error e := by
        simp only [Session.from_TCPIP, call_TCPIP_connect_fails cdkerrc _ src options ext e hc]
        simp [Session_builder.init]
      have h2 := from_Multi_source_singleton_fails cdkerrc ⟨.TCPIP src options, ext⟩ e
        ⟨trivial, hc⟩
      rw [h1, h2]
    | none =>
      simp only [Session.from_TCPIP, Session.from_Multi_source, ds.Multi_source.visit,
        Session_builder.call, call_TCPIP_connected cdkerrc _ src options ext hc]
      rcases tls_outcome cdkerrc (Connection.TCPIP src.host src.port) options.tls ext with
        ⟨r, evs⟩
      rcases r with e | w <;> simp [Except.map]
  refine ⟨key, ?_, ?_⟩
  · intro e
    rcases h1 : (Session.from_TCPIP cdkerrc src options ext).1 with e1 | s1 <;>
      rcases h2 : (Session.from_Multi_source cdkerrc [⟨.TCPIP src options, ext⟩]).1
        with e2 | s2 <;>
      rw [h1, h2] at key <;> simp [Except.map] at key ⊢
    exact ⟨fun h => by rw [← key, h], fun h => by rw [key, h]⟩
  · intro s hs1
    rcases h2 : (Session.from_Multi_source cdkerrc [⟨.TCPIP src options, ext⟩]).1
      with e2 | s2 <;>
      rw [hs1, h2] at key <;> simp [Except.map] at key
    exact ⟨s2, rfl, key.1.symm, key.2.symm⟩

end cdk
